import Mathlib

/-!
Shallow embedding of the NSX-T Terraform provider resource handlers
(`nsxt/resource_l4_port_set_ns_service.go`, `nsxt/resource_nsxt_nat_rule.go`,
`nsxt/resource_nsxt_firewall_section.go`).

Each Go handler receives a `*schema.ResourceData` (modelled here as a flat
record of the declared schema fields plus the resource id) and a generated
SDK client.  Every SDK method returns `(payload, *http.Response, error)`;
the `*http.Response` may be nil when the transport fails, which we model as
`Option Nat` (the status code, when a response exists).  Dereferencing a
missing response (`resp.StatusCode` on a nil pointer) is a runtime panic,
modelled by the `Outcome.panics` constructor.  The SDK client is modelled
as a structure of functions threading an abstract server state `σ`, so that
both scripted oracles and stateful server models can be plugged in.
Handlers additionally record the list of SDK calls they perform.
-/

set_option linter.unusedVariables false

/-- A scope/tag pair attached to an NSX object. -/
structure Tag where
  scope : String
  tag : String
  deriving DecidableEq, Repr

/-- A typed reference to another NSX object (manager.ResourceReference). -/
structure ResourceReference where
  is_valid : Bool
  target_display_name : String
  target_id : String
  target_type : String
  deriving DecidableEq, Repr

/-- A firewall service reference (manager.FirewallService). -/
structure FirewallService where
  IsValid : Bool
  TargetDisplayName : String
  TargetId : String
  TargetType : String
  deriving DecidableEq, Repr

/-- Result of one generated SDK call: the decoded payload, the HTTP status
code when an HTTP response exists (`none` models a nil `*http.Response`,
as happens on transport failure), and the Go error value. -/
structure ApiResp (α : Type) where
  payload : α
  resp : Option Nat
  err : Option String
  deriving DecidableEq, Repr

/-- Outcome of running a handler: a runtime panic (nil-pointer dereference),
an error return (with the message and the final local state), or a nil
return (with the final local state). -/
inductive Outcome (α : Type) where
  | panics : Outcome α
  | fails : String → α → Outcome α
  | ok : α → Outcome α
  deriving DecidableEq, Repr

/-- True exactly when the handler returned nil (success). -/
def Outcome.isOk {α : Type} : Outcome α → Bool
  | Outcome.ok _ => true
  | _ => false

/-- True exactly when the handler returned a Go error. -/
def Outcome.isFails {α : Type} : Outcome α → Bool
  | Outcome.fails _ _ => true
  | _ => false

/-- The SDK methods invoked by the three resource files, used to record the
trace of remote calls a handler performs. -/
inductive ApiCall where
  | createL4PortSetNSService
  | readL4PortSetNSService
  | updateL4PortSetNSService
  | deleteNSService
  | addNatRule
  | getNatRule
  | updateNatRule
  | deleteNatRule
  | addSection
  | addSectionWithRulesCreateWithRules
  | getSection
  | getSectionWithRulesListWithRules
  | updateSection
  | updateSectionWithRulesUpdateWithRules
  | deleteSection
  | deleteRule
  deriving DecidableEq, Repr

/-- What a handler run produces: the Go-level outcome on the local state,
the final remote/server state, and the trace of SDK calls made. -/
structure HandlerResult (σ τ : Type) where
  outcome : Outcome τ
  server : σ
  calls : List ApiCall
  deriving DecidableEq, Repr

/-- Modelled from the spec: `GetTagsFromSchema` / `getTagsFromSchema` and
`SetTagsInSchema` / `setTagsInSchema` are defined in a utility file that is
not among the included sources.  Per the spec the local record "mirrors a
remote object's JSON representation one-to-one", so the helpers map the
stored tag list to the request tag list (and back) unchanged. -/
def getTagsFromSchema (tags : List Tag) : List Tag := tags

/-- Modelled from the spec: `Interface2StringList` converts the untyped list
held by a TypeSet schema field into a `[]string`, one-to-one. -/
def Interface2StringList (l : List String) : List String := l

/-- Modelled from the spec: `getResourceReferencesFromSchemaSet`,
`getResourceReferences`, `returnResourceReferences` and
`setResourceReferencesInSchema` (utility file not among the included
sources) map the stored reference list one-to-one. -/
def getResourceReferences (refs : List ResourceReference) : List ResourceReference := refs

/- ## L4 port set NS service (resource_l4_port_set_ns_service.go) -/

/-- Local Terraform state of an `nsxt_l4_port_set_ns_service` resource: the
resource id plus the declared schema fields.  (`resource_type` is written
by the Read handler even though it is not declared in the schema.) -/
structure L4State where
  id : String
  revision : Int
  system_owned : Bool
  description : String
  display_name : String
  tags : List Tag
  default_service : Bool
  destination_ports : List String
  source_ports : List String
  l4_protocol : String
  resource_type : String
  deriving DecidableEq, Repr

/-- manager.L4PortSetNsService with its embedded manager.NsService and
manager.L4PortSetNsServiceEntry flattened (Go embeds them anonymously and
the JSON encoding is flat). -/
structure L4PortSetNsService where
  Id : String
  Revision : Int
  SystemOwned : Bool
  Description : String
  DisplayName : String
  Tags : List Tag
  DefaultService : Bool
  ResourceType : String
  L4Protocol : String
  DestinationPorts : List String
  SourcePorts : List String
  deriving DecidableEq, Repr

/-- The GroupingObjectsApi SDK client methods used by the L4 service
resource, threading an abstract server state `σ`. -/
structure GroupingObjectsApi (σ : Type) where
  createL4PortSetNSService : σ → L4PortSetNsService → ApiResp L4PortSetNsService × σ
  readL4PortSetNSService : σ → String → ApiResp L4PortSetNsService × σ
  updateL4PortSetNSService : σ → String → L4PortSetNsService → ApiResp L4PortSetNsService × σ
  deleteNSService : σ → String → ApiResp Unit × σ

/-- The request struct assembled by `resourceL4PortSetNsServiceCreate`
(lines 70-83): all gathered fields, no revision (Go zero values for the
fields the literal omits: Id, Revision, SystemOwned). -/
def resourceL4PortSetNsServiceCreateBody (d : L4State) : L4PortSetNsService :=
  { Id := ""
    Revision := 0
    SystemOwned := false
    Description := d.description
    DisplayName := d.display_name
    Tags := getTagsFromSchema d.tags
    DefaultService := d.default_service
    ResourceType := "L4PortSetNSService"
    L4Protocol := d.l4_protocol
    DestinationPorts := Interface2StringList d.destination_ports
    SourcePorts := Interface2StringList d.source_ports }

/-- The request struct assembled by `resourceL4PortSetNsServiceUpdate`
(lines 151-165): the same fields plus the revision read from state. -/
def resourceL4PortSetNsServiceUpdateBody (d : L4State) : L4PortSetNsService :=
  { Id := ""
    Revision := d.revision
    SystemOwned := false
    Description := d.description
    DisplayName := d.display_name
    Tags := getTagsFromSchema d.tags
    DefaultService := d.default_service
    ResourceType := "L4PortSetNSService"
    L4Protocol := d.l4_protocol
    DestinationPorts := Interface2StringList d.destination_ports
    SourcePorts := Interface2StringList d.source_ports }

/-- `resourceL4PortSetNsServiceRead`: guard on an empty id, call
`ReadL4PortSetNSService`, check `resp.StatusCode == 404` BEFORE checking
`err` (so a nil response panics), clear the id on 404, surface other
errors, otherwise copy the payload fields into state (the source sets
`resource_type` but never `l4_protocol`). -/
def resourceL4PortSetNsServiceRead {σ : Type} (api : GroupingObjectsApi σ) (srv : σ)
    (d : L4State) : HandlerResult σ L4State :=
  if d.id = "" then
    { outcome := Outcome.fails "Error obtaining logical object id" d, server := srv, calls := [] }
  else
    let c := api.readL4PortSetNSService srv d.id
    let r := c.1
    let srv1 := c.2
    match r.resp with
    | none => { outcome := Outcome.panics, server := srv1, calls := [ApiCall.readL4PortSetNSService] }
    | some code =>
      if code = 404 then
        { outcome := Outcome.ok { d with id := "" }, server := srv1,
          calls := [ApiCall.readL4PortSetNSService] }
      else if r.err.isSome then
        { outcome := Outcome.fails "Error during NsService read" d, server := srv1,
          calls := [ApiCall.readL4PortSetNSService] }
      else
        { outcome := Outcome.ok { d with
            revision := r.payload.Revision
            system_owned := r.payload.SystemOwned
            description := r.payload.Description
            display_name := r.payload.DisplayName
            tags := r.payload.Tags
            default_service := r.payload.DefaultService
            resource_type := r.payload.ResourceType
            destination_ports := r.payload.DestinationPorts
            source_ports := r.payload.SourcePorts }
          server := srv1, calls := [ApiCall.readL4PortSetNSService] }

/-- `resourceL4PortSetNsServiceCreate`: build the body, call
`CreateL4PortSetNSService`; an SDK error is fatal; on a status other than
201 the source prints "Unexpected status returned" and RETURNS NIL without
storing the id; on 201 it stores the returned id and delegates to Read. -/
def resourceL4PortSetNsServiceCreate {σ : Type} (api : GroupingObjectsApi σ) (srv : σ)
    (d : L4State) : HandlerResult σ L4State :=
  let c := api.createL4PortSetNSService srv (resourceL4PortSetNsServiceCreateBody d)
  let r := c.1
  let srv1 := c.2
  match r.err with
  | some _ =>
    { outcome := Outcome.fails "Error during NsService create" d, server := srv1,
      calls := [ApiCall.createL4PortSetNSService] }
  | none =>
    match r.resp with
    | none => { outcome := Outcome.panics, server := srv1, calls := [ApiCall.createL4PortSetNSService] }
    | some code =>
      if code = 201 then
        let d1 := { d with id := r.payload.Id }
        let rest := resourceL4PortSetNsServiceRead api srv1 d1
        { outcome := rest.outcome, server := rest.server,
          calls := ApiCall.createL4PortSetNSService :: rest.calls }
      else
        { outcome := Outcome.ok d, server := srv1, calls := [ApiCall.createL4PortSetNSService] }

/-- `resourceL4PortSetNsServiceUpdate`: guard on an empty id, resubmit the
full record plus revision; `if err != nil || resp.StatusCode == 404` is an
update error (the error check short-circuits, so the response is only
dereferenced when err is nil); otherwise delegate to Read. -/
def resourceL4PortSetNsServiceUpdate {σ : Type} (api : GroupingObjectsApi σ) (srv : σ)
    (d : L4State) : HandlerResult σ L4State :=
  if d.id = "" then
    { outcome := Outcome.fails "Error obtaining logical object id" d, server := srv, calls := [] }
  else
    let c := api.updateL4PortSetNSService srv d.id (resourceL4PortSetNsServiceUpdateBody d)
    let r := c.1
    let srv1 := c.2
    match r.err with
    | some _ =>
      { outcome := Outcome.fails "Error during NsService update" d, server := srv1,
        calls := [ApiCall.updateL4PortSetNSService] }
    | none =>
      match r.resp with
      | none => { outcome := Outcome.panics, server := srv1, calls := [ApiCall.updateL4PortSetNSService] }
      | some code =>
        if code = 404 then
          { outcome := Outcome.fails "Error during NsService update" d, server := srv1,
            calls := [ApiCall.updateL4PortSetNSService] }
        else
          let rest := resourceL4PortSetNsServiceRead api srv1 d
          { outcome := rest.outcome, server := rest.server,
            calls := ApiCall.updateL4PortSetNSService :: rest.calls }

/-- `resourceL4PortSetNsServiceDelete`: guard on an empty id, call
`DeleteNSService`; an SDK error is fatal (checked before the response is
touched); a 404 clears the id; any other status is a silent success. -/
def resourceL4PortSetNsServiceDelete {σ : Type} (api : GroupingObjectsApi σ) (srv : σ)
    (d : L4State) : HandlerResult σ L4State :=
  if d.id = "" then
    { outcome := Outcome.fails "Error obtaining logical object id" d, server := srv, calls := [] }
  else
    let c := api.deleteNSService srv d.id
    let r := c.1
    let srv1 := c.2
    match r.err with
    | some _ =>
      { outcome := Outcome.fails "Error during NsService delete" d, server := srv1,
        calls := [ApiCall.deleteNSService] }
    | none =>
      match r.resp with
      | none => { outcome := Outcome.panics, server := srv1, calls := [ApiCall.deleteNSService] }
      | some code =>
        if code = 404 then
          { outcome := Outcome.ok { d with id := "" }, server := srv1,
            calls := [ApiCall.deleteNSService] }
        else
          { outcome := Outcome.ok d, server := srv1, calls := [ApiCall.deleteNSService] }

/- ## NAT rule (resource_nsxt_nat_rule.go) -/

/-- Local Terraform state of an `nsxt_nat_rule` resource. -/
structure NatState where
  id : String
  revision : Int
  description : String
  display_name : String
  tags : List Tag
  action : String
  enabled : Bool
  logging : Bool
  logical_router_id : String
  match_destination_network : String
  match_source_network : String
  nat_pass : Bool
  rule_priority : Int
  translated_network : String
  translated_ports : String
  deriving DecidableEq, Repr

/-- manager.NatRule (the fields the resource file touches). -/
structure NatRule where
  Id : String
  Revision : Int
  Description : String
  DisplayName : String
  Tags : List Tag
  Action : String
  Enabled : Bool
  Logging : Bool
  LogicalRouterId : String
  MatchDestinationNetwork : String
  MatchSourceNetwork : String
  NatPass : Bool
  RulePriority : Int
  TranslatedNetwork : String
  TranslatedPorts : String
  deriving DecidableEq, Repr

/-- The LogicalRoutingAndServicesApi SDK client methods used by the NAT
rule resource (each takes the logical router id). -/
structure LogicalRoutingAndServicesApi (σ : Type) where
  addNatRule : σ → String → NatRule → ApiResp NatRule × σ
  getNatRule : σ → String → String → ApiResp NatRule × σ
  updateNatRule : σ → String → String → NatRule → ApiResp NatRule × σ
  deleteNatRule : σ → String → String → ApiResp Unit × σ

/-- The request struct assembled by `resourceNsxtNatRuleCreate` (lines
118-133): all gathered fields, no revision. -/
def resourceNsxtNatRuleCreateBody (d : NatState) : NatRule :=
  { Id := ""
    Revision := 0
    Description := d.description
    DisplayName := d.display_name
    Tags := getTagsFromSchema d.tags
    Action := d.action
    Enabled := d.enabled
    Logging := d.logging
    LogicalRouterId := d.logical_router_id
    MatchDestinationNetwork := d.match_destination_network
    MatchSourceNetwork := d.match_source_network
    NatPass := d.nat_pass
    RulePriority := d.rule_priority
    TranslatedNetwork := d.translated_network
    TranslatedPorts := d.translated_ports }

/-- The request struct assembled by `resourceNsxtNatRuleUpdate` (lines
216-232): the same fields plus the revision read from state. -/
def resourceNsxtNatRuleUpdateBody (d : NatState) : NatRule :=
  { Id := ""
    Revision := d.revision
    Description := d.description
    DisplayName := d.display_name
    Tags := getTagsFromSchema d.tags
    Action := d.action
    Enabled := d.enabled
    Logging := d.logging
    LogicalRouterId := d.logical_router_id
    MatchDestinationNetwork := d.match_destination_network
    MatchSourceNetwork := d.match_source_network
    NatPass := d.nat_pass
    RulePriority := d.rule_priority
    TranslatedNetwork := d.translated_network
    TranslatedPorts := d.translated_ports }

/-- `resourceNsxtNatRuleRead`: guard on empty id, then on empty
logical_router_id, call `GetNatRule`, check `resp.StatusCode == 404`
BEFORE checking `err` (nil response panics), clear the id on 404, surface
other errors, otherwise copy the payload fields into state. -/
def resourceNsxtNatRuleRead {σ : Type} (api : LogicalRoutingAndServicesApi σ) (srv : σ)
    (d : NatState) : HandlerResult σ NatState :=
  if d.id = "" then
    { outcome := Outcome.fails "Error obtaining logical object id" d, server := srv, calls := [] }
  else if d.logical_router_id = "" then
    { outcome := Outcome.fails "Error obtaining logical object id" d, server := srv, calls := [] }
  else
    let c := api.getNatRule srv d.logical_router_id d.id
    let r := c.1
    let srv1 := c.2
    match r.resp with
    | none => { outcome := Outcome.panics, server := srv1, calls := [ApiCall.getNatRule] }
    | some code =>
      if code = 404 then
        { outcome := Outcome.ok { d with id := "" }, server := srv1, calls := [ApiCall.getNatRule] }
      else if r.err.isSome then
        { outcome := Outcome.fails "Error during NatRule read" d, server := srv1,
          calls := [ApiCall.getNatRule] }
      else
        { outcome := Outcome.ok { d with
            revision := r.payload.Revision
            description := r.payload.Description
            display_name := r.payload.DisplayName
            tags := r.payload.Tags
            action := r.payload.Action
            enabled := r.payload.Enabled
            logging := r.payload.Logging
            logical_router_id := r.payload.LogicalRouterId
            match_destination_network := r.payload.MatchDestinationNetwork
            match_source_network := r.payload.MatchSourceNetwork
            nat_pass := r.payload.NatPass
            rule_priority := r.payload.RulePriority
            translated_network := r.payload.TranslatedNetwork
            translated_ports := r.payload.TranslatedPorts }
          server := srv1, calls := [ApiCall.getNatRule] }

/-- `resourceNsxtNatRuleCreate`: guard on an empty logical_router_id, call
`AddNatRule`; an SDK error is fatal; a status other than 201 is fatal
("Unexpected status returned during NatRule create"); on 201 store the
returned id and delegate to Read. -/
def resourceNsxtNatRuleCreate {σ : Type} (api : LogicalRoutingAndServicesApi σ) (srv : σ)
    (d : NatState) : HandlerResult σ NatState :=
  if d.logical_router_id = "" then
    { outcome := Outcome.fails "Error obtaining logical object id" d, server := srv, calls := [] }
  else
    let c := api.addNatRule srv d.logical_router_id (resourceNsxtNatRuleCreateBody d)
    let r := c.1
    let srv1 := c.2
    match r.err with
    | some _ =>
      { outcome := Outcome.fails "Error during NatRule create" d, server := srv1,
        calls := [ApiCall.addNatRule] }
    | none =>
      match r.resp with
      | none => { outcome := Outcome.panics, server := srv1, calls := [ApiCall.addNatRule] }
      | some code =>
        if code = 201 then
          let d1 := { d with id := r.payload.Id }
          let rest := resourceNsxtNatRuleRead api srv1 d1
          { outcome := rest.outcome, server := rest.server,
            calls := ApiCall.addNatRule :: rest.calls }
        else
          { outcome := Outcome.fails "Unexpected status returned during NatRule create" d,
            server := srv1, calls := [ApiCall.addNatRule] }

/-- `resourceNsxtNatRuleUpdate`: guard on empty id and empty
logical_router_id, resubmit the full record plus revision;
`if err != nil || resp.StatusCode == 404` is an update error (err checked
first); otherwise delegate to Read. -/
def resourceNsxtNatRuleUpdate {σ : Type} (api : LogicalRoutingAndServicesApi σ) (srv : σ)
    (d : NatState) : HandlerResult σ NatState :=
  if d.id = "" then
    { outcome := Outcome.fails "Error obtaining logical object id" d, server := srv, calls := [] }
  else if d.logical_router_id = "" then
    { outcome := Outcome.fails "Error obtaining logical object id" d, server := srv, calls := [] }
  else
    let c := api.updateNatRule srv d.logical_router_id d.id (resourceNsxtNatRuleUpdateBody d)
    let r := c.1
    let srv1 := c.2
    match r.err with
    | some _ =>
      { outcome := Outcome.fails "Error during NatRule update" d, server := srv1,
        calls := [ApiCall.updateNatRule] }
    | none =>
      match r.resp with
      | none => { outcome := Outcome.panics, server := srv1, calls := [ApiCall.updateNatRule] }
      | some code =>
        if code = 404 then
          { outcome := Outcome.fails "Error during NatRule update" d, server := srv1,
            calls := [ApiCall.updateNatRule] }
        else
          let rest := resourceNsxtNatRuleRead api srv1 d
          { outcome := rest.outcome, server := rest.server,
            calls := ApiCall.updateNatRule :: rest.calls }

/-- `resourceNsxtNatRuleDelete`: guard on empty id and empty
logical_router_id, call `DeleteNatRule`; an SDK error is fatal (checked
before the response is touched); a 404 clears the id; any other status is
a silent success. -/
def resourceNsxtNatRuleDelete {σ : Type} (api : LogicalRoutingAndServicesApi σ) (srv : σ)
    (d : NatState) : HandlerResult σ NatState :=
  if d.id = "" then
    { outcome := Outcome.fails "Error obtaining logical object id" d, server := srv, calls := [] }
  else if d.logical_router_id = "" then
    { outcome := Outcome.fails "Error obtaining logical object id" d, server := srv, calls := [] }
  else
    let c := api.deleteNatRule srv d.logical_router_id d.id
    let r := c.1
    let srv1 := c.2
    match r.err with
    | some _ =>
      { outcome := Outcome.fails "Error during NatRule delete" d, server := srv1,
        calls := [ApiCall.deleteNatRule] }
    | none =>
      match r.resp with
      | none => { outcome := Outcome.panics, server := srv1, calls := [ApiCall.deleteNatRule] }
      | some code =>
        if code = 404 then
          { outcome := Outcome.ok { d with id := "" }, server := srv1,
            calls := [ApiCall.deleteNatRule] }
        else
          { outcome := Outcome.ok d, server := srv1, calls := [ApiCall.deleteNatRule] }

/- ## Firewall section (resource_nsxt_firewall_section.go) -/

/-- One entry of the local `rule` list (the schema element map written by
`setRulesInSchema` and read by `getRulesFromSchema`). -/
structure FwRuleLocal where
  id : String
  display_name : String
  description : String
  rule_tag : String
  notes : String
  logged : Bool
  action : String
  destinations_excluded : Bool
  sources_excluded : Bool
  ip_protocol : String
  disabled : Bool
  revision : Int
  direction : String
  source : List ResourceReference
  destination : List ResourceReference
  service : List FirewallService
  deriving DecidableEq, Repr

/-- Local Terraform state of an `nsxt_firewall_section` resource. -/
structure FwState where
  id : String
  revision : Int
  description : String
  display_name : String
  tags : List Tag
  is_default : Bool
  section_type : String
  stateful : Bool
  applied_to : List ResourceReference
  rule : List FwRuleLocal
  deriving DecidableEq, Repr

/-- manager.FirewallRule (the fields the resource file touches). -/
structure FirewallRule where
  Id : String
  DisplayName : String
  RuleTag : String
  Notes : String
  Description : String
  Action : String
  Logged : Bool
  Disabled : Bool
  Revision : Int
  SourcesExcluded : Bool
  DestinationsExcluded : Bool
  IpProtocol : String
  Direction : String
  Sources : List ResourceReference
  Destinations : List ResourceReference
  Services : List FirewallService
  deriving DecidableEq, Repr

/-- manager.FirewallSection (rule-free form). -/
structure FirewallSection where
  Id : String
  Revision : Int
  Description : String
  DisplayName : String
  Tags : List Tag
  AppliedTos : List ResourceReference
  IsDefault : Bool
  SectionType : String
  Stateful : Bool
  deriving DecidableEq, Repr

/-- manager.FirewallSectionRuleList (section plus its rules). -/
structure FirewallSectionRuleList where
  Id : String
  Revision : Int
  Description : String
  DisplayName : String
  Tags : List Tag
  AppliedTos : List ResourceReference
  IsDefault : Bool
  SectionType : String
  Stateful : Bool
  Rules : List FirewallRule
  deriving DecidableEq, Repr

/-- The ServicesApi SDK client methods used by the firewall section
resource. -/
structure ServicesApi (σ : Type) where
  addSection : σ → FirewallSection → ApiResp FirewallSection × σ
  addSectionWithRulesCreateWithRules : σ → FirewallSectionRuleList → ApiResp FirewallSectionRuleList × σ
  getSection : σ → String → ApiResp FirewallSection × σ
  getSectionWithRulesListWithRules : σ → String → ApiResp FirewallSectionRuleList × σ
  updateSection : σ → String → FirewallSection → ApiResp FirewallSection × σ
  updateSectionWithRulesUpdateWithRules : σ → String → FirewallSectionRuleList → ApiResp FirewallSectionRuleList × σ
  deleteSection : σ → String → ApiResp Unit × σ
  deleteRule : σ → String → String → ApiResp Unit × σ

/-- `returnServicesResourceReferences`: copy each manager.FirewallService
into a schema element map, field by field. -/
def returnServicesResourceReferences (services : List FirewallService) : List FirewallService :=
  services.map (fun srv =>
    { IsValid := srv.IsValid
      TargetDisplayName := srv.TargetDisplayName
      TargetId := srv.TargetId
      TargetType := srv.TargetType })

/-- `getServicesResourceReferences`: rebuild manager.FirewallService values
from the schema element maps, field by field. -/
def getServicesResourceReferences (services : List FirewallService) : List FirewallService :=
  services.map (fun data =>
    { IsValid := data.IsValid
      TargetDisplayName := data.TargetDisplayName
      TargetId := data.TargetId
      TargetType := data.TargetType })

/-- `setRulesInSchema`: map each manager.FirewallRule into a local rule
element (the `id` comes from the remote rule; the rule-level `applied_to`
is never written back). -/
def setRulesInSchema (rules : List FirewallRule) : List FwRuleLocal :=
  rules.map (fun rule =>
    { id := rule.Id
      display_name := rule.DisplayName
      description := rule.Description
      rule_tag := rule.RuleTag
      notes := rule.Notes
      logged := rule.Logged
      action := rule.Action
      destinations_excluded := rule.DestinationsExcluded
      sources_excluded := rule.SourcesExcluded
      ip_protocol := rule.IpProtocol
      disabled := rule.Disabled
      revision := rule.Revision
      direction := rule.Direction
      source := getResourceReferences rule.Sources
      destination := getResourceReferences rule.Destinations
      service := returnServicesResourceReferences rule.Services })

/-- `getRulesFromSchema`: build the manager.FirewallRule list from the
local `rule` list (the element `id` is not read, so the request rule Id is
the Go zero value). -/
def getRulesFromSchema (d : FwState) : List FirewallRule :=
  d.rule.map (fun data =>
    { Id := ""
      DisplayName := data.display_name
      RuleTag := data.rule_tag
      Notes := data.notes
      Description := data.description
      Action := data.action
      Logged := data.logged
      Disabled := data.disabled
      Revision := data.revision
      SourcesExcluded := data.sources_excluded
      DestinationsExcluded := data.destinations_excluded
      IpProtocol := data.ip_protocol
      Direction := data.direction
      Sources := getResourceReferences data.source
      Destinations := getResourceReferences data.destination
      Services := getServicesResourceReferences data.service })

/-- The request struct assembled by `resourceNsxtFirewallSectionCreateEmpty`
(lines 233-241): section fields, no revision, no rules. -/
def resourceNsxtFirewallSectionCreateEmptyBody (d : FwState) : FirewallSection :=
  { Id := ""
    Revision := 0
    Description := d.description
    DisplayName := d.display_name
    Tags := getTagsFromSchema d.tags
    AppliedTos := getResourceReferences d.applied_to
    IsDefault := d.is_default
    SectionType := d.section_type
    Stateful := d.stateful }

/-- The request struct assembled by `resourceNsxtFirewallSectionCreate`
(lines 269-278): section fields plus the rule list, no revision. -/
def resourceNsxtFirewallSectionCreateBody (d : FwState) : FirewallSectionRuleList :=
  { Id := ""
    Revision := 0
    Description := d.description
    DisplayName := d.display_name
    Tags := getTagsFromSchema d.tags
    AppliedTos := getResourceReferences d.applied_to
    IsDefault := d.is_default
    SectionType := d.section_type
    Stateful := d.stateful
    Rules := getRulesFromSchema d }

/-- The request struct assembled by `resourceNsxtFirewallSectionUpdateEmpty`
(lines 344-353): section fields plus the revision read from state. -/
def resourceNsxtFirewallSectionUpdateEmptyBody (d : FwState) : FirewallSection :=
  { Id := ""
    Revision := d.revision
    Description := d.description
    DisplayName := d.display_name
    Tags := getTagsFromSchema d.tags
    AppliedTos := getResourceReferences d.applied_to
    IsDefault := d.is_default
    SectionType := d.section_type
    Stateful := d.stateful }

/-- The request struct assembled by `resourceNsxtFirewallSectionUpdate`
(lines 395-405): section fields, the rule list and the revision. -/
def resourceNsxtFirewallSectionUpdateBody (d : FwState) : FirewallSectionRuleList :=
  { Id := ""
    Revision := d.revision
    Description := d.description
    DisplayName := d.display_name
    Tags := getTagsFromSchema d.tags
    AppliedTos := getResourceReferences d.applied_to
    IsDefault := d.is_default
    SectionType := d.section_type
    Stateful := d.stateful
    Rules := getRulesFromSchema d }

/-- `resourceNsxtFirewallSectionRead`: guard on an empty id, call
`GetSectionWithRulesListWithRules` (status checked BEFORE err, so a nil
response panics; 404 clears the id; other errors are surfaced), copy the
section fields and rules into state, then make a SECOND call `GetSection`
to fetch the applied-tos (again status before err). -/
def resourceNsxtFirewallSectionRead {σ : Type} (api : ServicesApi σ) (srv : σ)
    (d : FwState) : HandlerResult σ FwState :=
  if d.id = "" then
    { outcome := Outcome.fails "Error obtaining logical object id" d, server := srv, calls := [] }
  else
    let c := api.getSectionWithRulesListWithRules srv d.id
    let r := c.1
    let srv1 := c.2
    match r.resp with
    | none =>
      { outcome := Outcome.panics, server := srv1,
        calls := [ApiCall.getSectionWithRulesListWithRules] }
    | some code =>
      if code = 404 then
        { outcome := Outcome.ok { d with id := "" }, server := srv1,
          calls := [ApiCall.getSectionWithRulesListWithRules] }
      else if r.err.isSome then
        { outcome := Outcome.fails "Error during FirewallSection read" d, server := srv1,
          calls := [ApiCall.getSectionWithRulesListWithRules] }
      else
        let d1 := { d with
          revision := r.payload.Revision
          description := r.payload.Description
          display_name := r.payload.DisplayName
          tags := r.payload.Tags
          rule := setRulesInSchema r.payload.Rules
          is_default := r.payload.IsDefault
          section_type := r.payload.SectionType
          stateful := r.payload.Stateful }
        let c2 := api.getSection srv1 d.id
        let r2 := c2.1
        let srv2 := c2.2
        match r2.resp with
        | none =>
          { outcome := Outcome.panics, server := srv2,
            calls := [ApiCall.getSectionWithRulesListWithRules, ApiCall.getSection] }
        | some code2 =>
          if code2 = 404 then
            { outcome := Outcome.ok { d1 with id := "" }, server := srv2,
              calls := [ApiCall.getSectionWithRulesListWithRules, ApiCall.getSection] }
          else if r2.err.isSome then
            { outcome := Outcome.fails "Error during FirewallSection read" d1, server := srv2,
              calls := [ApiCall.getSectionWithRulesListWithRules, ApiCall.getSection] }
          else
            { outcome := Outcome.ok { d1 with
                applied_to := getResourceReferences r2.payload.AppliedTos }
              server := srv2,
              calls := [ApiCall.getSectionWithRulesListWithRules, ApiCall.getSection] }

/-- `resourceNsxtFirewallSectionCreateEmpty`: call `AddSection`; an SDK
error is fatal; a status other than 201 is fatal; on 201 store the
returned id and delegate to Read. -/
def resourceNsxtFirewallSectionCreateEmpty {σ : Type} (api : ServicesApi σ) (srv : σ)
    (d : FwState) : HandlerResult σ FwState :=
  let c := api.addSection srv (resourceNsxtFirewallSectionCreateEmptyBody d)
  let r := c.1
  let srv1 := c.2
  match r.err with
  | some _ =>
    { outcome := Outcome.fails "Error during FirewallSection create empty" d, server := srv1,
      calls := [ApiCall.addSection] }
  | none =>
    match r.resp with
    | none => { outcome := Outcome.panics, server := srv1, calls := [ApiCall.addSection] }
    | some code =>
      if code = 201 then
        let d1 := { d with id := r.payload.Id }
        let rest := resourceNsxtFirewallSectionRead api srv1 d1
        { outcome := rest.outcome, server := rest.server,
          calls := ApiCall.addSection :: rest.calls }
      else
        { outcome := Outcome.fails "Unexpected status returned during FirewallSection create empty" d,
          server := srv1, calls := [ApiCall.addSection] }

/-- `resourceNsxtFirewallSectionCreate`: with an empty local rule list
delegate to the empty-create path; otherwise call
`AddSectionWithRulesCreateWithRules` with the same fatal-error handling,
store the returned id and delegate to Read. -/
def resourceNsxtFirewallSectionCreate {σ : Type} (api : ServicesApi σ) (srv : σ)
    (d : FwState) : HandlerResult σ FwState :=
  if getRulesFromSchema d = [] then
    resourceNsxtFirewallSectionCreateEmpty api srv d
  else
    let c := api.addSectionWithRulesCreateWithRules srv (resourceNsxtFirewallSectionCreateBody d)
    let r := c.1
    let srv1 := c.2
    match r.err with
    | some _ =>
      { outcome := Outcome.fails "Error during FirewallSection create with rules" d, server := srv1,
        calls := [ApiCall.addSectionWithRulesCreateWithRules] }
    | none =>
      match r.resp with
      | none =>
        { outcome := Outcome.panics, server := srv1,
          calls := [ApiCall.addSectionWithRulesCreateWithRules] }
      | some code =>
        if code = 201 then
          let d1 := { d with id := r.payload.Id }
          let rest := resourceNsxtFirewallSectionRead api srv1 d1
          { outcome := rest.outcome, server := rest.server,
            calls := ApiCall.addSectionWithRulesCreateWithRules :: rest.calls }
        else
          { outcome := Outcome.fails "Unexpected status returned during FirewallSection create with rules" d,
            server := srv1, calls := [ApiCall.addSectionWithRulesCreateWithRules] }

/-- `resourceNsxtFirewallSectionUpdateEmpty`: update the section metadata
without rules (`if err != nil || resp.StatusCode == 404` is fatal), then
read the section's current remote rules (status checked BEFORE err; a 404
here is an error, not a silent clear) and issue a `DeleteRule` for each,
ignoring the individual results, finally delegate to Read. -/
def resourceNsxtFirewallSectionUpdateEmpty {σ : Type} (api : ServicesApi σ) (srv : σ)
    (d : FwState) (id : String) : HandlerResult σ FwState :=
  let c := api.updateSection srv id (resourceNsxtFirewallSectionUpdateEmptyBody d)
  let r := c.1
  let srv1 := c.2
  match r.err with
  | some _ =>
    { outcome := Outcome.fails "Error during FirewallSection update empty" d, server := srv1,
      calls := [ApiCall.updateSection] }
  | none =>
    match r.resp with
    | none => { outcome := Outcome.panics, server := srv1, calls := [ApiCall.updateSection] }
    | some code =>
      if code = 404 then
        { outcome := Outcome.fails "Error during FirewallSection update empty" d, server := srv1,
          calls := [ApiCall.updateSection] }
      else
        let c2 := api.getSectionWithRulesListWithRules srv1 id
        let r2 := c2.1
        let srv2 := c2.2
        match r2.resp with
        | none =>
          { outcome := Outcome.panics, server := srv2,
            calls := [ApiCall.updateSection, ApiCall.getSectionWithRulesListWithRules] }
        | some code2 =>
          if code2 = 404 then
            { outcome := Outcome.fails "FirewallSection not found during update empty action" d,
              server := srv2,
              calls := [ApiCall.updateSection, ApiCall.getSectionWithRulesListWithRules] }
          else if r2.err.isSome then
            { outcome := Outcome.fails "Error during FirewallSection update empty: cannot read the section" d,
              server := srv2,
              calls := [ApiCall.updateSection, ApiCall.getSectionWithRulesListWithRules] }
          else
            let srv3 := r2.payload.Rules.foldl (fun st rule => (api.deleteRule st id rule.Id).2) srv2
            let rest := resourceNsxtFirewallSectionRead api srv3 d
            { outcome := rest.outcome, server := rest.server,
              calls := ApiCall.updateSection :: ApiCall.getSectionWithRulesListWithRules ::
                (r2.payload.Rules.map (fun _ => ApiCall.deleteRule) ++ rest.calls) }

/-- `resourceNsxtFirewallSectionUpdate`: guard on an empty id; with an
empty local rule list delegate to the empty-update path; otherwise
resubmit the full record plus revision via
`UpdateSectionWithRulesUpdateWithRules` (`if err != nil ||
resp.StatusCode == 404` is fatal) and delegate to Read. -/
def resourceNsxtFirewallSectionUpdate {σ : Type} (api : ServicesApi σ) (srv : σ)
    (d : FwState) : HandlerResult σ FwState :=
  if d.id = "" then
    { outcome := Outcome.fails "Error obtaining logical object id" d, server := srv, calls := [] }
  else if getRulesFromSchema d = [] then
    resourceNsxtFirewallSectionUpdateEmpty api srv d d.id
  else
    let c := api.updateSectionWithRulesUpdateWithRules srv d.id
      (resourceNsxtFirewallSectionUpdateBody d)
    let r := c.1
    let srv1 := c.2
    match r.err with
    | some _ =>
      { outcome := Outcome.fails "Error during FirewallSection update" d, server := srv1,
        calls := [ApiCall.updateSectionWithRulesUpdateWithRules] }
    | none =>
      match r.resp with
      | none =>
        { outcome := Outcome.panics, server := srv1,
          calls := [ApiCall.updateSectionWithRulesUpdateWithRules] }
      | some code =>
        if code = 404 then
          { outcome := Outcome.fails "Error during FirewallSection update" d, server := srv1,
            calls := [ApiCall.updateSectionWithRulesUpdateWithRules] }
        else
          let rest := resourceNsxtFirewallSectionRead api srv1 d
          { outcome := rest.outcome, server := rest.server,
            calls := ApiCall.updateSectionWithRulesUpdateWithRules :: rest.calls }

/-- `resourceNsxtFirewallSectionDelete`: guard on an empty id, call
`DeleteSection` (with the cascade option); an SDK error is fatal (checked
before the response is touched); a 404 clears the id; any other status is
a silent success. -/
def resourceNsxtFirewallSectionDelete {σ : Type} (api : ServicesApi σ) (srv : σ)
    (d : FwState) : HandlerResult σ FwState :=
  if d.id = "" then
    { outcome := Outcome.fails "Error obtaining logical object id" d, server := srv, calls := [] }
  else
    let c := api.deleteSection srv d.id
    let r := c.1
    let srv1 := c.2
    match r.err with
    | some _ =>
      { outcome := Outcome.fails "Error during FirewallSection delete" d, server := srv1,
        calls := [ApiCall.deleteSection] }
    | none =>
      match r.resp with
      | none => { outcome := Outcome.panics, server := srv1, calls := [ApiCall.deleteSection] }
      | some code =>
        if code = 404 then
          { outcome := Outcome.ok { d with id := "" }, server := srv1,
            calls := [ApiCall.deleteSection] }
        else
          { outcome := Outcome.ok d, server := srv1, calls := [ApiCall.deleteSection] }

/- ## Concrete oracles, server models and fixtures -/

/-- A successful SDK result with the given status code. -/
def respOk {α : Type} (code : Nat) (p : α) : ApiResp α :=
  { payload := p, resp := some code, err := none }

/-- A failed SDK result: a Go error plus an optional HTTP response. -/
def respErr {α : Type} (p : α) (code : Option Nat) (msg : String) : ApiResp α :=
  { payload := p, resp := code, err := some msg }

/-- The Go zero value of manager.L4PortSetNsService. -/
def emptyL4Msg : L4PortSetNsService :=
  { Id := "", Revision := 0, SystemOwned := false, Description := "", DisplayName := ""
    Tags := [], DefaultService := false, ResourceType := "", L4Protocol := ""
    DestinationPorts := [], SourcePorts := [] }

/-- The Go zero value of manager.NatRule. -/
def emptyNatMsg : NatRule :=
  { Id := "", Revision := 0, Description := "", DisplayName := "", Tags := []
    Action := "", Enabled := false, Logging := false, LogicalRouterId := ""
    MatchDestinationNetwork := "", MatchSourceNetwork := "", NatPass := false
    RulePriority := 0, TranslatedNetwork := "", TranslatedPorts := "" }

/-- The Go zero value of manager.FirewallSection. -/
def emptyFwSection : FirewallSection :=
  { Id := "", Revision := 0, Description := "", DisplayName := "", Tags := []
    AppliedTos := [], IsDefault := false, SectionType := "", Stateful := false }

/-- The Go zero value of manager.FirewallSectionRuleList. -/
def emptyFwRuleList : FirewallSectionRuleList :=
  { Id := "", Revision := 0, Description := "", DisplayName := "", Tags := []
    AppliedTos := [], IsDefault := false, SectionType := "", Stateful := false, Rules := [] }

/-- A stateless GroupingObjectsApi oracle returning fixed results. -/
def constGroupingApi (c r u : ApiResp L4PortSetNsService) (del : ApiResp Unit) :
    GroupingObjectsApi Unit :=
  { createL4PortSetNSService := fun _ _ => (c, ())
    readL4PortSetNSService := fun _ _ => (r, ())
    updateL4PortSetNSService := fun _ _ _ => (u, ())
    deleteNSService := fun _ _ => (del, ()) }

/-- A stateless LogicalRoutingAndServicesApi oracle returning fixed results. -/
def constNatApi (a g u : ApiResp NatRule) (del : ApiResp Unit) :
    LogicalRoutingAndServicesApi Unit :=
  { addNatRule := fun _ _ _ => (a, ())
    getNatRule := fun _ _ _ => (g, ())
    updateNatRule := fun _ _ _ _ => (u, ())
    deleteNatRule := fun _ _ _ => (del, ()) }

/-- A stateless ServicesApi oracle returning fixed results. -/
def constServicesApi (a : ApiResp FirewallSection) (awr : ApiResp FirewallSectionRuleList)
    (g : ApiResp FirewallSection) (gwr : ApiResp FirewallSectionRuleList)
    (u : ApiResp FirewallSection) (uwr : ApiResp FirewallSectionRuleList)
    (ds dr : ApiResp Unit) : ServicesApi Unit :=
  { addSection := fun _ _ => (a, ())
    addSectionWithRulesCreateWithRules := fun _ _ => (awr, ())
    getSection := fun _ _ => (g, ())
    getSectionWithRulesListWithRules := fun _ _ => (gwr, ())
    updateSection := fun _ _ _ => (u, ())
    updateSectionWithRulesUpdateWithRules := fun _ _ _ => (uwr, ())
    deleteSection := fun _ _ => (ds, ())
    deleteRule := fun _ _ _ => (dr, ()) }

/-- The rule-list payload served by the firewall section server model:
the fixed metadata together with the current rules. -/
def fwSectionWithRules (meta : FirewallSection) (rules : List FirewallRule) :
    FirewallSectionRuleList :=
  { Id := meta.Id, Revision := meta.Revision, Description := meta.Description
    DisplayName := meta.DisplayName, Tags := meta.Tags
    AppliedTos := meta.AppliedTos, IsDefault := meta.IsDefault
    SectionType := meta.SectionType, Stateful := meta.Stateful
    Rules := rules }

/-- One `DeleteRule` call against the firewall section server model:
when `delOk` allows it, the addressed rule is removed from the section and
the call succeeds; otherwise the call fails and the rule stays. -/
def fwDeleteRuleStep (delOk : String → Bool) (rid : String) (srv : List FirewallRule) :
    ApiResp Unit × List FirewallRule :=
  if delOk rid then
    ({ payload := (), resp := some 200, err := none }, srv.filter (fun x => x.Id != rid))
  else
    ({ payload := (), resp := some 400, err := some "rule delete failed" }, srv)

/-- An NSX manager model for one firewall section whose server state is the
list of rules currently in the section: reads return the current rules
under the fixed metadata `meta`, and `DeleteRule` removes the addressed
rule when `delOk` allows it and fails (leaving the rule in place)
otherwise. -/
def fwRuleServer (delOk : String → Bool) (meta : FirewallSection) :
    ServicesApi (List FirewallRule) :=
  { addSection := fun srv body => ({ payload := body, resp := some 201, err := none }, srv)
    addSectionWithRulesCreateWithRules := fun _ body =>
      ({ payload := body, resp := some 201, err := none }, body.Rules)
    getSection := fun srv _ => ({ payload := meta, resp := some 200, err := none }, srv)
    getSectionWithRulesListWithRules := fun srv _ =>
      ({ payload := fwSectionWithRules meta srv, resp := some 200, err := none }, srv)
    updateSection := fun srv _ body => ({ payload := body, resp := some 200, err := none }, srv)
    updateSectionWithRulesUpdateWithRules := fun _ _ body =>
      ({ payload := body, resp := some 200, err := none }, body.Rules)
    deleteSection := fun srv _ => ({ payload := (), resp := some 200, err := none }, srv)
    deleteRule := fun srv _ rid => fwDeleteRuleStep delOk rid srv }

/-- A concrete L4 service state with a known identifier. -/
def l4TestState : L4State :=
  { id := "svc-1", revision := 3, system_owned := false, description := "web ports"
    display_name := "web", tags := [{ scope := "env", tag := "prod" }]
    default_service := false, destination_ports := ["443", "8443"], source_ports := []
    l4_protocol := "TCP", resource_type := "" }

/-- A fresh (pre-create) L4 service state carrying a nonzero revision. -/
def l4RevState : L4State :=
  { id := "", revision := 1, system_owned := false, description := "web ports"
    display_name := "web", tags := [], default_service := false
    destination_ports := ["443"], source_ports := [], l4_protocol := "TCP"
    resource_type := "" }

/-- A concrete NAT rule state with known identifiers. -/
def natTestState : NatState :=
  { id := "nat-1", revision := 5, description := "snat", display_name := "snat-rule"
    tags := [], action := "SNAT", enabled := true, logging := false
    logical_router_id := "lr-1", match_destination_network := ""
    match_source_network := "10.0.0.0/24", nat_pass := true, rule_priority := 100
    translated_network := "192.0.2.1", translated_ports := "" }

/-- A concrete local firewall rule element. -/
def fwLocalRule : FwRuleLocal :=
  { id := "", display_name := "r1", description := "", rule_tag := "", notes := ""
    logged := false, action := "ALLOW", destinations_excluded := false
    sources_excluded := false, ip_protocol := "IPV4", disabled := false
    revision := 0, direction := "IN_OUT", source := [], destination := [], service := [] }

/-- A concrete firewall section state whose local rule list is nonempty. -/
def fwTestState : FwState :=
  { id := "sec-1", revision := 2, description := "east-west", display_name := "dfw"
    tags := [], is_default := false, section_type := "LAYER3", stateful := true
    applied_to := [], rule := [fwLocalRule] }

/-- The same firewall section state with an empty local rule list. -/
def fwEmptyRulesState : FwState :=
  { id := "sec-1", revision := 2, description := "east-west", display_name := "dfw"
    tags := [], is_default := false, section_type := "LAYER3", stateful := true
    applied_to := [], rule := [] }

/-- Fixed metadata for the firewall section server model. -/
def fwMeta : FirewallSection :=
  { Id := "sec-1", Revision := 3, Description := "east-west", DisplayName := "dfw"
    Tags := [], AppliedTos := [], IsDefault := false, SectionType := "LAYER3"
    Stateful := true }

/-- A remote firewall rule with id "rule-a". -/
def fwRuleA : FirewallRule :=
  { Id := "rule-a", DisplayName := "a", RuleTag := "", Notes := "", Description := ""
    Action := "ALLOW", Logged := false, Disabled := false, Revision := 1
    SourcesExcluded := false, DestinationsExcluded := false, IpProtocol := "IPV4"
    Direction := "IN_OUT", Sources := [], Destinations := [], Services := [] }

/-- A remote firewall rule with id "rule-b". -/
def fwRuleB : FirewallRule :=
  { Id := "rule-b", DisplayName := "b", RuleTag := "", Notes := "", Description := ""
    Action := "DROP", Logged := false, Disabled := false, Revision := 1
    SourcesExcluded := false, DestinationsExcluded := false, IpProtocol := "IPV4"
    Direction := "IN_OUT", Sources := [], Destinations := [], Services := [] }

/-- A delete oracle that only lets the delete of "rule-a" succeed. -/
def delOkOnlyA : String → Bool := fun rid => rid == "rule-a"

/-- A delete oracle under which every rule delete succeeds. -/
def delOkAll : String → Bool := fun _ => true

/-- L4 oracle: every call succeeds (201 on create, 200 elsewhere). -/
def l4AllOkApi : GroupingObjectsApi Unit :=
  constGroupingApi (respOk 201 emptyL4Msg) (respOk 200 emptyL4Msg) (respOk 200 emptyL4Msg)
    (respOk 200 ())

/-- L4 oracle: every call comes back 404 with no Go error. -/
def l4NotFoundApi : GroupingObjectsApi Unit :=
  constGroupingApi (respOk 404 emptyL4Msg) (respOk 404 emptyL4Msg) (respOk 404 emptyL4Msg)
    (respOk 404 ())

/-- L4 oracle: every call fails at the transport with no HTTP response. -/
def l4DownApi : GroupingObjectsApi Unit :=
  constGroupingApi (respErr emptyL4Msg none "connection refused")
    (respErr emptyL4Msg none "connection refused")
    (respErr emptyL4Msg none "connection refused") (respErr () none "connection refused")

/-- L4 oracle: every call fails with a Go error carrying a 500 response. -/
def l4Err500Api : GroupingObjectsApi Unit :=
  constGroupingApi (respErr emptyL4Msg (some 500) "internal server error")
    (respErr emptyL4Msg (some 500) "internal server error")
    (respErr emptyL4Msg (some 500) "internal server error")
    (respErr () (some 500) "internal server error")

/-- NAT oracle: every call succeeds (201 on create, 200 elsewhere). -/
def natAllOkApi : LogicalRoutingAndServicesApi Unit :=
  constNatApi (respOk 201 emptyNatMsg) (respOk 200 emptyNatMsg) (respOk 200 emptyNatMsg)
    (respOk 200 ())

/-- NAT oracle: every call comes back 404 with no Go error. -/
def natNotFoundApi : LogicalRoutingAndServicesApi Unit :=
  constNatApi (respOk 404 emptyNatMsg) (respOk 404 emptyNatMsg) (respOk 404 emptyNatMsg)
    (respOk 404 ())

/-- NAT oracle: every call fails at the transport with no HTTP response. -/
def natDownApi : LogicalRoutingAndServicesApi Unit :=
  constNatApi (respErr emptyNatMsg none "connection refused")
    (respErr emptyNatMsg none "connection refused")
    (respErr emptyNatMsg none "connection refused") (respErr () none "connection refused")

/-- NAT oracle: every call fails with a Go error carrying a 500 response. -/
def natErr500Api : LogicalRoutingAndServicesApi Unit :=
  constNatApi (respErr emptyNatMsg (some 500) "internal server error")
    (respErr emptyNatMsg (some 500) "internal server error")
    (respErr emptyNatMsg (some 500) "internal server error")
    (respErr () (some 500) "internal server error")

/-- Firewall oracle: every call succeeds; the rule-list read serves the
section `fwMeta` holding the single remote rule `fwRuleA`. -/
def fwAllOkApi : ServicesApi Unit :=
  constServicesApi (respOk 201 emptyFwSection) (respOk 201 emptyFwRuleList)
    (respOk 200 fwMeta) (respOk 200 (fwSectionWithRules fwMeta [fwRuleA]))
    (respOk 200 emptyFwSection) (respOk 200 emptyFwRuleList) (respOk 200 ()) (respOk 200 ())

/-- Firewall oracle: every call comes back 404 with no Go error. -/
def fwNotFoundApi : ServicesApi Unit :=
  constServicesApi (respOk 404 emptyFwSection) (respOk 404 emptyFwRuleList)
    (respOk 404 fwMeta) (respOk 404 emptyFwRuleList)
    (respOk 404 emptyFwSection) (respOk 404 emptyFwRuleList) (respOk 404 ()) (respOk 404 ())

/-- Firewall oracle: every call fails at the transport with no HTTP response. -/
def fwDownApi : ServicesApi Unit :=
  constServicesApi (respErr emptyFwSection none "connection refused")
    (respErr emptyFwRuleList none "connection refused")
    (respErr fwMeta none "connection refused")
    (respErr emptyFwRuleList none "connection refused")
    (respErr emptyFwSection none "connection refused")
    (respErr emptyFwRuleList none "connection refused")
    (respErr () none "connection refused") (respErr () none "connection refused")

/-- Firewall oracle: every call fails with a Go error carrying a 500 response. -/
def fwErr500Api : ServicesApi Unit :=
  constServicesApi (respErr emptyFwSection (some 500) "internal server error")
    (respErr emptyFwRuleList (some 500) "internal server error")
    (respErr fwMeta (some 500) "internal server error")
    (respErr emptyFwRuleList (some 500) "internal server error")
    (respErr emptyFwSection (some 500) "internal server error")
    (respErr emptyFwRuleList (some 500) "internal server error")
    (respErr () (some 500) "internal server error") (respErr () (some 500) "internal server error")

/-- The L4 test state with its identifier cleared. -/
def l4NoIdState : L4State := { l4TestState with id := "" }

/-- The NAT test state with its identifier cleared. -/
def natNoIdState : NatState := { natTestState with id := "" }

/-- The NAT test state with its logical router id cleared. -/
def natNoLrState : NatState := { natTestState with logical_router_id := "" }

/-- The firewall test state with its identifier cleared. -/
def fwNoIdState : FwState := { fwTestState with id := "" }

/- ## Claim theorems -/

/-- C1: evaluating the L4 service Create handler at the failing input of
the code bug: the API call returns with no transport error but with status
200 (not 201 Created), and the handler returns nil — not a fatal error —
leaving the local identifier unset (the final state equals the initial
one, so the identifier is indeed not stored, but the "fails with a fatal
error" part of the claim is contradicted by the code, which prints
"Unexpected status returned" and then returns nil; the sibling NAT rule
and firewall section Create handlers return an error here). -/
theorem c1_l4_create_unexpected_status_returns_nil :
    (resourceL4PortSetNsServiceCreate
      (constGroupingApi (respOk 200 emptyL4Msg) (respOk 200 emptyL4Msg)
        (respOk 200 emptyL4Msg) (respOk 200 ())) () l4RevState).outcome
      = Outcome.ok l4RevState := by
  rfl

/-- C7: for every resource, the Update request struct equals the Create
request struct with the revision field replaced by the revision read from
local state, the Update request carries exactly that revision, and the
Create request leaves the revision at the Go zero value (omits it). -/
theorem c7_update_resubmits_full_record_with_revision
    (dL : L4State) (dN : NatState) (dF : FwState) :
    resourceL4PortSetNsServiceUpdateBody dL
      = { resourceL4PortSetNsServiceCreateBody dL with Revision := dL.revision }
    ∧ (resourceL4PortSetNsServiceUpdateBody dL).Revision = dL.revision
    ∧ (resourceL4PortSetNsServiceCreateBody dL).Revision = 0
    ∧ resourceNsxtNatRuleUpdateBody dN
      = { resourceNsxtNatRuleCreateBody dN with Revision := dN.revision }
    ∧ (resourceNsxtNatRuleUpdateBody dN).Revision = dN.revision
    ∧ (resourceNsxtNatRuleCreateBody dN).Revision = 0
    ∧ resourceNsxtFirewallSectionUpdateBody dF
      = { resourceNsxtFirewallSectionCreateBody dF with Revision := dF.revision }
    ∧ (resourceNsxtFirewallSectionUpdateBody dF).Revision = dF.revision
    ∧ (resourceNsxtFirewallSectionCreateBody dF).Revision = 0
    ∧ resourceNsxtFirewallSectionUpdateEmptyBody dF
      = { resourceNsxtFirewallSectionCreateEmptyBody dF with Revision := dF.revision }
    ∧ (resourceNsxtFirewallSectionUpdateEmptyBody dF).Revision = dF.revision
    ∧ (resourceNsxtFirewallSectionCreateEmptyBody dF).Revision = 0 :=
  ⟨rfl, rfl, rfl, rfl, rfl, rfl, rfl, rfl, rfl, rfl, rfl, rfl⟩

/-- C2 counterexample: the NAT rule Read handler, on an SDK error carrying
no HTTP response (a plain transport failure, which is a non-404 API
error), does not return an error at all: it dereferences the nil response
and panics, because the source checks `resp.StatusCode` before checking
`err`. -/
theorem c2_counterexample_nat_read_error_without_response_panics :
    (resourceNsxtNatRuleRead natDownApi () natTestState).outcome = Outcome.panics
    ∧ Outcome.isFails (resourceNsxtNatRuleRead natDownApi () natTestState).outcome = false := by
  exact ⟨rfl, rfl⟩

/-- C5 counterexample: the L4 service Read handler accesses the response
status before establishing that a response exists: on a transport/SDK
failure with no HTTP response it panics instead of returning an error
with context. -/
theorem c5_counterexample_l4_read_panics_without_response :
    (resourceL4PortSetNsServiceRead l4DownApi () l4TestState).outcome = Outcome.panics
    ∧ Outcome.isFails (resourceL4PortSetNsServiceRead l4DownApi () l4TestState).outcome = false := by
  exact ⟨rfl, rfl⟩

/-- C6 counterexample: the firewall section Read handler performs two
remote calls (the rule-list Get and the plain Get for the applied-tos),
not exactly one. -/
theorem c6_counterexample_fw_read_two_calls :
    (resourceNsxtFirewallSectionRead fwAllOkApi () fwTestState).calls
      = [ApiCall.getSectionWithRulesListWithRules, ApiCall.getSection]
    ∧ (resourceNsxtFirewallSectionRead fwAllOkApi () fwTestState).calls.length ≠ 1 := by
  exact ⟨rfl, by decide⟩

/-- C2 (amended): for every resource Read handler invoked with a non-empty
local identifier (and, for the NAT rule, a non-empty logical router id), a
404 response clears the local identifier and the handler returns nil, and
any API error that carries a non-404 HTTP response makes the handler
return an error with the state (hence the identifier) unchanged.  (The
amendment: an SDK error carrying NO response does not produce an error
return — the handler dereferences the missing response and panics, see the
counterexample.) -/
theorem c2_read_404_clears_other_response_errors_surface
    {σ₁ σ₂ σ₃ σ₄ σ₅ σ₆ : Type}
    (api1 : GroupingObjectsApi σ₁) (s1 : σ₁) (d1 : L4State) (h1 : d1.id ≠ "")
    (h1r : (api1.readL4PortSetNSService s1 d1.id).1.resp = some 404)
    (api2 : GroupingObjectsApi σ₂) (s2 : σ₂) (d2 : L4State) (h2 : d2.id ≠ "")
    (c2 : Nat) (e2 : String)
    (h2r : (api2.readL4PortSetNSService s2 d2.id).1.resp = some c2) (h2c : c2 ≠ 404)
    (h2e : (api2.readL4PortSetNSService s2 d2.id).1.err = some e2)
    (api3 : LogicalRoutingAndServicesApi σ₃) (s3 : σ₃) (d3 : NatState)
    (h3 : d3.id ≠ "") (h3lr : d3.logical_router_id ≠ "")
    (h3r : (api3.getNatRule s3 d3.logical_router_id d3.id).1.resp = some 404)
    (api4 : LogicalRoutingAndServicesApi σ₄) (s4 : σ₄) (d4 : NatState)
    (h4 : d4.id ≠ "") (h4lr : d4.logical_router_id ≠ "") (c4 : Nat) (e4 : String)
    (h4r : (api4.getNatRule s4 d4.logical_router_id d4.id).1.resp = some c4) (h4c : c4 ≠ 404)
    (h4e : (api4.getNatRule s4 d4.logical_router_id d4.id).1.err = some e4)
    (api5 : ServicesApi σ₅) (s5 : σ₅) (d5 : FwState) (h5 : d5.id ≠ "")
    (h5r : (api5.getSectionWithRulesListWithRules s5 d5.id).1.resp = some 404)
    (api6 : ServicesApi σ₆) (s6 : σ₆) (d6 : FwState) (h6 : d6.id ≠ "")
    (c6 : Nat) (e6 : String)
    (h6r : (api6.getSectionWithRulesListWithRules s6 d6.id).1.resp = some c6) (h6c : c6 ≠ 404)
    (h6e : (api6.getSectionWithRulesListWithRules s6 d6.id).1.err = some e6) :
    (resourceL4PortSetNsServiceRead api1 s1 d1).outcome = Outcome.ok { d1 with id := "" }
    ∧ (resourceL4PortSetNsServiceRead api2 s2 d2).outcome
      = Outcome.fails "Error during NsService read" d2
    ∧ (resourceNsxtNatRuleRead api3 s3 d3).outcome = Outcome.ok { d3 with id := "" }
    ∧ (resourceNsxtNatRuleRead api4 s4 d4).outcome
      = Outcome.fails "Error during NatRule read" d4
    ∧ (resourceNsxtFirewallSectionRead api5 s5 d5).outcome = Outcome.ok { d5 with id := "" }
    ∧ (resourceNsxtFirewallSectionRead api6 s6 d6).outcome
      = Outcome.fails "Error during FirewallSection read" d6 := by
  refine ⟨?_, ?_, ?_, ?_, ?_, ?_⟩
  · simp [resourceL4PortSetNsServiceRead, h1, h1r]
  · simp [resourceL4PortSetNsServiceRead, h2, h2r, h2c, h2e]
  · simp [resourceNsxtNatRuleRead, h3, h3lr, h3r]
  · simp [resourceNsxtNatRuleRead, h4, h4lr, h4r, h4c, h4e]
  · simp [resourceNsxtFirewallSectionRead, h5, h5r]
  · simp [resourceNsxtFirewallSectionRead, h6, h6r, h6c, h6e]

/-- C2 witness: the amended Read behaviour evaluated on the concrete
states and oracles (404 clears the id and returns nil; a 500-carrying
error surfaces with the state unchanged). -/
theorem c2_read_404_clears_other_response_errors_surface_witness :
    (resourceL4PortSetNsServiceRead l4NotFoundApi () l4TestState).outcome
      = Outcome.ok { l4TestState with id := "" }
    ∧ (resourceL4PortSetNsServiceRead l4Err500Api () l4TestState).outcome
      = Outcome.fails "Error during NsService read" l4TestState
    ∧ (resourceNsxtNatRuleRead natNotFoundApi () natTestState).outcome
      = Outcome.ok { natTestState with id := "" }
    ∧ (resourceNsxtNatRuleRead natErr500Api () natTestState).outcome
      = Outcome.fails "Error during NatRule read" natTestState
    ∧ (resourceNsxtFirewallSectionRead fwNotFoundApi () fwTestState).outcome
      = Outcome.ok { fwTestState with id := "" }
    ∧ (resourceNsxtFirewallSectionRead fwErr500Api () fwTestState).outcome
      = Outcome.fails "Error during FirewallSection read" fwTestState :=
  c2_read_404_clears_other_response_errors_surface
    l4NotFoundApi () l4TestState (by decide) rfl
    l4Err500Api () l4TestState (by decide) 500 "internal server error" rfl (by decide) rfl
    natNotFoundApi () natTestState (by decide) (by decide) rfl
    natErr500Api () natTestState (by decide) (by decide) 500 "internal server error" rfl
      (by decide) rfl
    fwNotFoundApi () fwTestState (by decide) rfl
    fwErr500Api () fwTestState (by decide) 500 "internal server error" rfl (by decide) rfl

/-- C3: for every resource Update handler (including both firewall section
paths), a 404 response from the update call makes the handler return an
error with the state — in particular the local identifier — unchanged,
whatever the accompanying Go error value is. -/
theorem c3_update_404_is_error_id_unchanged
    {σ₁ σ₂ σ₃ : Type}
    (api1 : GroupingObjectsApi σ₁) (s1 : σ₁) (dL : L4State) (hL : dL.id ≠ "")
    (hL404 : (api1.updateL4PortSetNSService s1 dL.id
        (resourceL4PortSetNsServiceUpdateBody dL)).1.resp = some 404)
    (api2 : LogicalRoutingAndServicesApi σ₂) (s2 : σ₂) (dN : NatState)
    (hN : dN.id ≠ "") (hNlr : dN.logical_router_id ≠ "")
    (hN404 : (api2.updateNatRule s2 dN.logical_router_id dN.id
        (resourceNsxtNatRuleUpdateBody dN)).1.resp = some 404)
    (api3 : ServicesApi σ₃) (s3 : σ₃) (dF : FwState) (hF : dF.id ≠ "")
    (hFr : getRulesFromSchema dF ≠ [])
    (hF404 : (api3.updateSectionWithRulesUpdateWithRules s3 dF.id
        (resourceNsxtFirewallSectionUpdateBody dF)).1.resp = some 404)
    (dE : FwState) (hE : dE.id ≠ "") (hEr : getRulesFromSchema dE = [])
    (hE404 : (api3.updateSection s3 dE.id
        (resourceNsxtFirewallSectionUpdateEmptyBody dE)).1.resp = some 404) :
    (resourceL4PortSetNsServiceUpdate api1 s1 dL).outcome
      = Outcome.fails "Error during NsService update" dL
    ∧ (resourceNsxtNatRuleUpdate api2 s2 dN).outcome
      = Outcome.fails "Error during NatRule update" dN
    ∧ (resourceNsxtFirewallSectionUpdate api3 s3 dF).outcome
      = Outcome.fails "Error during FirewallSection update" dF
    ∧ (resourceNsxtFirewallSectionUpdate api3 s3 dE).outcome
      = Outcome.fails "Error during FirewallSection update empty" dE := by
  refine ⟨?_, ?_, ?_, ?_⟩
  · cases herr : (api1.updateL4PortSetNSService s1 dL.id
        (resourceL4PortSetNsServiceUpdateBody dL)).1.err with
    | none => simp [resourceL4PortSetNsServiceUpdate, hL, hL404, herr]
    | some e => simp [resourceL4PortSetNsServiceUpdate, hL, herr]
  · cases herr : (api2.updateNatRule s2 dN.logical_router_id dN.id
        (resourceNsxtNatRuleUpdateBody dN)).1.err with
    | none => simp [resourceNsxtNatRuleUpdate, hN, hNlr, hN404, herr]
    | some e => simp [resourceNsxtNatRuleUpdate, hN, hNlr, herr]
  · cases herr : (api3.updateSectionWithRulesUpdateWithRules s3 dF.id
        (resourceNsxtFirewallSectionUpdateBody dF)).1.err with
    | none => simp [resourceNsxtFirewallSectionUpdate, hF, hFr, hF404, herr]
    | some e => simp [resourceNsxtFirewallSectionUpdate, hF, hFr, herr]
  · cases herr : (api3.updateSection s3 dE.id
        (resourceNsxtFirewallSectionUpdateEmptyBody dE)).1.err with
    | none =>
      simp [resourceNsxtFirewallSectionUpdate, resourceNsxtFirewallSectionUpdateEmpty,
        hE, hEr, hE404, herr]
    | some e =>
      simp [resourceNsxtFirewallSectionUpdate, resourceNsxtFirewallSectionUpdateEmpty,
        hE, hEr, herr]

/-- C3 witness: the Update-hits-404 behaviour evaluated on the concrete
states against the all-404 oracles. -/
theorem c3_update_404_is_error_id_unchanged_witness :
    (resourceL4PortSetNsServiceUpdate l4NotFoundApi () l4TestState).outcome
      = Outcome.fails "Error during NsService update" l4TestState
    ∧ (resourceNsxtNatRuleUpdate natNotFoundApi () natTestState).outcome
      = Outcome.fails "Error during NatRule update" natTestState
    ∧ (resourceNsxtFirewallSectionUpdate fwNotFoundApi () fwTestState).outcome
      = Outcome.fails "Error during FirewallSection update" fwTestState
    ∧ (resourceNsxtFirewallSectionUpdate fwNotFoundApi () fwEmptyRulesState).outcome
      = Outcome.fails "Error during FirewallSection update empty" fwEmptyRulesState :=
  c3_update_404_is_error_id_unchanged
    l4NotFoundApi () l4TestState (by decide) rfl
    natNotFoundApi () natTestState (by decide) (by decide) rfl
    fwNotFoundApi () fwTestState (by decide) (by decide) rfl
    fwEmptyRulesState (by decide) (by decide) rfl

/-- C4: for every resource Delete handler invoked with a non-empty local
identifier (and, for the NAT rule, a non-empty logical router id), a
delete call returning without a transport error and with a 404 status
clears the local identifier and the handler returns nil, while a
transport error makes the handler return an error with the state — hence
the identifier — unchanged. -/
theorem c4_delete_404_clears_transport_error_surfaces
    {σ₁ σ₂ σ₃ σ₄ σ₅ σ₆ : Type}
    (api1 : GroupingObjectsApi σ₁) (s1 : σ₁) (d1 : L4State) (h1 : d1.id ≠ "")
    (h1e : (api1.deleteNSService s1 d1.id).1.err = none)
    (h1r : (api1.deleteNSService s1 d1.id).1.resp = some 404)
    (api2 : GroupingObjectsApi σ₂) (s2 : σ₂) (d2 : L4State) (h2 : d2.id ≠ "") (e2 : String)
    (h2e : (api2.deleteNSService s2 d2.id).1.err = some e2)
    (api3 : LogicalRoutingAndServicesApi σ₃) (s3 : σ₃) (d3 : NatState)
    (h3 : d3.id ≠ "") (h3lr : d3.logical_router_id ≠ "")
    (h3e : (api3.deleteNatRule s3 d3.logical_router_id d3.id).1.err = none)
    (h3r : (api3.deleteNatRule s3 d3.logical_router_id d3.id).1.resp = some 404)
    (api4 : LogicalRoutingAndServicesApi σ₄) (s4 : σ₄) (d4 : NatState)
    (h4 : d4.id ≠ "") (h4lr : d4.logical_router_id ≠ "") (e4 : String)
    (h4e : (api4.deleteNatRule s4 d4.logical_router_id d4.id).1.err = some e4)
    (api5 : ServicesApi σ₅) (s5 : σ₅) (d5 : FwState) (h5 : d5.id ≠ "")
    (h5e : (api5.deleteSection s5 d5.id).1.err = none)
    (h5r : (api5.deleteSection s5 d5.id).1.resp = some 404)
    (api6 : ServicesApi σ₆) (s6 : σ₆) (d6 : FwState) (h6 : d6.id ≠ "") (e6 : String)
    (h6e : (api6.deleteSection s6 d6.id).1.err = some e6) :
    (resourceL4PortSetNsServiceDelete api1 s1 d1).outcome = Outcome.ok { d1 with id := "" }
    ∧ (resourceL4PortSetNsServiceDelete api2 s2 d2).outcome
      = Outcome.fails "Error during NsService delete" d2
    ∧ (resourceNsxtNatRuleDelete api3 s3 d3).outcome = Outcome.ok { d3 with id := "" }
    ∧ (resourceNsxtNatRuleDelete api4 s4 d4).outcome
      = Outcome.fails "Error during NatRule delete" d4
    ∧ (resourceNsxtFirewallSectionDelete api5 s5 d5).outcome = Outcome.ok { d5 with id := "" }
    ∧ (resourceNsxtFirewallSectionDelete api6 s6 d6).outcome
      = Outcome.fails "Error during FirewallSection delete" d6 := by
  refine ⟨?_, ?_, ?_, ?_, ?_, ?_⟩
  · simp [resourceL4PortSetNsServiceDelete, h1, h1e, h1r]
  · simp [resourceL4PortSetNsServiceDelete, h2, h2e]
  · simp [resourceNsxtNatRuleDelete, h3, h3lr, h3e, h3r]
  · simp [resourceNsxtNatRuleDelete, h4, h4lr, h4e]
  · simp [resourceNsxtFirewallSectionDelete, h5, h5e, h5r]
  · simp [resourceNsxtFirewallSectionDelete, h6, h6e]

/-- C4 witness: the Delete behaviour evaluated on the concrete states
(404 with no error clears the id and returns nil; a transport error
surfaces with the state unchanged). -/
theorem c4_delete_404_clears_transport_error_surfaces_witness :
    (resourceL4PortSetNsServiceDelete l4NotFoundApi () l4TestState).outcome
      = Outcome.ok { l4TestState with id := "" }
    ∧ (resourceL4PortSetNsServiceDelete l4DownApi () l4TestState).outcome
      = Outcome.fails "Error during NsService delete" l4TestState
    ∧ (resourceNsxtNatRuleDelete natNotFoundApi () natTestState).outcome
      = Outcome.ok { natTestState with id := "" }
    ∧ (resourceNsxtNatRuleDelete natDownApi () natTestState).outcome
      = Outcome.fails "Error during NatRule delete" natTestState
    ∧ (resourceNsxtFirewallSectionDelete fwNotFoundApi () fwTestState).outcome
      = Outcome.ok { fwTestState with id := "" }
    ∧ (resourceNsxtFirewallSectionDelete fwDownApi () fwTestState).outcome
      = Outcome.fails "Error during FirewallSection delete" fwTestState :=
  c4_delete_404_clears_transport_error_surfaces
    l4NotFoundApi () l4TestState (by decide) rfl rfl
    l4DownApi () l4TestState (by decide) "connection refused" rfl
    natNotFoundApi () natTestState (by decide) (by decide) rfl rfl
    natDownApi () natTestState (by decide) (by decide) "connection refused" rfl
    fwNotFoundApi () fwTestState (by decide) rfl rfl
    fwDownApi () fwTestState (by decide) "connection refused" rfl

/-- C5 (amended): for every resource, an SDK failure of the Create, Update
or Delete call produces an error return with the state unchanged — those
handlers check the Go error before touching the response — but the Read
handlers (and hence every path that delegates to them) access
`resp.StatusCode` first, so an SDK failure with no HTTP response makes
every Read panic instead of returning an error. -/
theorem c5_transport_failure_errors_except_reads_panic
    {σ₁ σ₂ σ₃ : Type}
    (api1 : GroupingObjectsApi σ₁) (s1 : σ₁) (dL : L4State) (hL : dL.id ≠ "")
    (eC eU eD : String)
    (hC : (api1.createL4PortSetNSService s1 (resourceL4PortSetNsServiceCreateBody dL)).1.err
      = some eC)
    (hU : (api1.updateL4PortSetNSService s1 dL.id
      (resourceL4PortSetNsServiceUpdateBody dL)).1.err = some eU)
    (hD : (api1.deleteNSService s1 dL.id).1.err = some eD)
    (hR : (api1.readL4PortSetNSService s1 dL.id).1.resp = none)
    (api2 : LogicalRoutingAndServicesApi σ₂) (s2 : σ₂) (dN : NatState)
    (hN : dN.id ≠ "") (hNlr : dN.logical_router_id ≠ "") (eC2 eU2 eD2 : String)
    (hC2 : (api2.addNatRule s2 dN.logical_router_id
      (resourceNsxtNatRuleCreateBody dN)).1.err = some eC2)
    (hU2 : (api2.updateNatRule s2 dN.logical_router_id dN.id
      (resourceNsxtNatRuleUpdateBody dN)).1.err = some eU2)
    (hD2 : (api2.deleteNatRule s2 dN.logical_router_id dN.id).1.err = some eD2)
    (hR2 : (api2.getNatRule s2 dN.logical_router_id dN.id).1.resp = none)
    (api3 : ServicesApi σ₃) (s3 : σ₃) (dF : FwState) (hF : dF.id ≠ "")
    (hFr : getRulesFromSchema dF ≠ [])
    (dE : FwState) (hE : dE.id ≠ "") (hEr : getRulesFromSchema dE = [])
    (e31 e32 e33 e34 e35 : String)
    (hCE : (api3.addSection s3 (resourceNsxtFirewallSectionCreateEmptyBody dE)).1.err
      = some e31)
    (hCR : (api3.addSectionWithRulesCreateWithRules s3
      (resourceNsxtFirewallSectionCreateBody dF)).1.err = some e32)
    (hUE : (api3.updateSection s3 dE.id
      (resourceNsxtFirewallSectionUpdateEmptyBody dE)).1.err = some e33)
    (hUR : (api3.updateSectionWithRulesUpdateWithRules s3 dF.id
      (resourceNsxtFirewallSectionUpdateBody dF)).1.err = some e34)
    (hDS : (api3.deleteSection s3 dF.id).1.err = some e35)
    (hGR : (api3.getSectionWithRulesListWithRules s3 dF.id).1.resp = none) :
    (resourceL4PortSetNsServiceCreate api1 s1 dL).outcome
      = Outcome.fails "Error during NsService create" dL
    ∧ (resourceL4PortSetNsServiceUpdate api1 s1 dL).outcome
      = Outcome.fails "Error during NsService update" dL
    ∧ (resourceL4PortSetNsServiceDelete api1 s1 dL).outcome
      = Outcome.fails "Error during NsService delete" dL
    ∧ (resourceL4PortSetNsServiceRead api1 s1 dL).outcome = Outcome.panics
    ∧ (resourceNsxtNatRuleCreate api2 s2 dN).outcome
      = Outcome.fails "Error during NatRule create" dN
    ∧ (resourceNsxtNatRuleUpdate api2 s2 dN).outcome
      = Outcome.fails "Error during NatRule update" dN
    ∧ (resourceNsxtNatRuleDelete api2 s2 dN).outcome
      = Outcome.fails "Error during NatRule delete" dN
    ∧ (resourceNsxtNatRuleRead api2 s2 dN).outcome = Outcome.panics
    ∧ (resourceNsxtFirewallSectionCreate api3 s3 dE).outcome
      = Outcome.fails "Error during FirewallSection create empty" dE
    ∧ (resourceNsxtFirewallSectionCreate api3 s3 dF).outcome
      = Outcome.fails "Error during FirewallSection create with rules" dF
    ∧ (resourceNsxtFirewallSectionUpdate api3 s3 dE).outcome
      = Outcome.fails "Error during FirewallSection update empty" dE
    ∧ (resourceNsxtFirewallSectionUpdate api3 s3 dF).outcome
      = Outcome.fails "Error during FirewallSection update" dF
    ∧ (resourceNsxtFirewallSectionDelete api3 s3 dF).outcome
      = Outcome.fails "Error during FirewallSection delete" dF
    ∧ (resourceNsxtFirewallSectionRead api3 s3 dF).outcome = Outcome.panics := by
  refine ⟨?_, ?_, ?_, ?_, ?_, ?_, ?_, ?_, ?_, ?_, ?_, ?_, ?_, ?_⟩
  · simp [resourceL4PortSetNsServiceCreate, hC]
  · simp [resourceL4PortSetNsServiceUpdate, hL, hU]
  · simp [resourceL4PortSetNsServiceDelete, hL, hD]
  · simp [resourceL4PortSetNsServiceRead, hL, hR]
  · simp [resourceNsxtNatRuleCreate, hNlr, hC2]
  · simp [resourceNsxtNatRuleUpdate, hN, hNlr, hU2]
  · simp [resourceNsxtNatRuleDelete, hN, hNlr, hD2]
  · simp [resourceNsxtNatRuleRead, hN, hNlr, hR2]
  · simp [resourceNsxtFirewallSectionCreate, resourceNsxtFirewallSectionCreateEmpty, hEr, hCE]
  · simp [resourceNsxtFirewallSectionCreate, hFr, hCR]
  · simp [resourceNsxtFirewallSectionUpdate, resourceNsxtFirewallSectionUpdateEmpty,
      hE, hEr, hUE]
  · simp [resourceNsxtFirewallSectionUpdate, hF, hFr, hUR]
  · simp [resourceNsxtFirewallSectionDelete, hF, hDS]
  · simp [resourceNsxtFirewallSectionRead, hF, hGR]

/-- C5 witness: the amended transport-failure behaviour evaluated on the
concrete states against the no-response transport-failure oracles. -/
theorem c5_transport_failure_errors_except_reads_panic_witness :
    (resourceL4PortSetNsServiceCreate l4DownApi () l4TestState).outcome
      = Outcome.fails "Error during NsService create" l4TestState
    ∧ (resourceL4PortSetNsServiceUpdate l4DownApi () l4TestState).outcome
      = Outcome.fails "Error during NsService update" l4TestState
    ∧ (resourceL4PortSetNsServiceDelete l4DownApi () l4TestState).outcome
      = Outcome.fails "Error during NsService delete" l4TestState
    ∧ (resourceL4PortSetNsServiceRead l4DownApi () l4TestState).outcome = Outcome.panics
    ∧ (resourceNsxtNatRuleCreate natDownApi () natTestState).outcome
      = Outcome.fails "Error during NatRule create" natTestState
    ∧ (resourceNsxtNatRuleUpdate natDownApi () natTestState).outcome
      = Outcome.fails "Error during NatRule update" natTestState
    ∧ (resourceNsxtNatRuleDelete natDownApi () natTestState).outcome
      = Outcome.fails "Error during NatRule delete" natTestState
    ∧ (resourceNsxtNatRuleRead natDownApi () natTestState).outcome = Outcome.panics
    ∧ (resourceNsxtFirewallSectionCreate fwDownApi () fwEmptyRulesState).outcome
      = Outcome.fails "Error during FirewallSection create empty" fwEmptyRulesState
    ∧ (resourceNsxtFirewallSectionCreate fwDownApi () fwTestState).outcome
      = Outcome.fails "Error during FirewallSection create with rules" fwTestState
    ∧ (resourceNsxtFirewallSectionUpdate fwDownApi () fwEmptyRulesState).outcome
      = Outcome.fails "Error during FirewallSection update empty" fwEmptyRulesState
    ∧ (resourceNsxtFirewallSectionUpdate fwDownApi () fwTestState).outcome
      = Outcome.fails "Error during FirewallSection update" fwTestState
    ∧ (resourceNsxtFirewallSectionDelete fwDownApi () fwTestState).outcome
      = Outcome.fails "Error during FirewallSection delete" fwTestState
    ∧ (resourceNsxtFirewallSectionRead fwDownApi () fwTestState).outcome = Outcome.panics :=
  c5_transport_failure_errors_except_reads_panic
    l4DownApi () l4TestState (by decide)
    "connection refused" "connection refused" "connection refused" rfl rfl rfl rfl
    natDownApi () natTestState (by decide) (by decide)
    "connection refused" "connection refused" "connection refused" rfl rfl rfl rfl
    fwDownApi () fwTestState (by decide) (by decide)
    fwEmptyRulesState (by decide) (by decide)
    "connection refused" "connection refused" "connection refused" "connection refused"
    "connection refused" rfl rfl rfl rfl rfl rfl

/-- C6 (amended): only the L4 and NAT Read handlers and the three Delete
handlers perform exactly one API call; the firewall section Read performs
one or two Gets — exactly two whenever its first Get succeeds — never one
as claimed.  Every Create and Update performs its single write call and
otherwise only delegates to Read: its trace is the write call alone (when
it aborts) or the write call followed by the delegated Read trace; the
empty-rules firewall Update trace is the metadata update, then the
rule-list Get, then one DeleteRule per remote rule followed by the
delegated Read calls (truncated at whichever call aborts the handler). -/
theorem c6_call_counts_per_operation
    {σ₁ σ₂ σ₃ σ₄ : Type}
    (api1 : GroupingObjectsApi σ₁) (s1 : σ₁) (dL : L4State) (hL : dL.id ≠ "")
    (api2 : LogicalRoutingAndServicesApi σ₂) (s2 : σ₂) (dN : NatState)
    (hN : dN.id ≠ "") (hNlr : dN.logical_router_id ≠ "")
    (api3 : ServicesApi σ₃) (s3 : σ₃) (dF : FwState) (hF : dF.id ≠ "")
    (hFr : getRulesFromSchema dF ≠ [])
    (dE : FwState) (hE : dE.id ≠ "") (hEr : getRulesFromSchema dE = [])
    (api4 : ServicesApi σ₄) (s4 : σ₄) (dG : FwState) (hG : dG.id ≠ "") (cG : Nat)
    (hGr : (api4.getSectionWithRulesListWithRules s4 dG.id).1.resp = some cG)
    (hGc : cG ≠ 404)
    (hGe : (api4.getSectionWithRulesListWithRules s4 dG.id).1.err = none) :
    (resourceL4PortSetNsServiceRead api1 s1 dL).calls = [ApiCall.readL4PortSetNSService]
    ∧ (resourceNsxtNatRuleRead api2 s2 dN).calls = [ApiCall.getNatRule]
    ∧ ((resourceNsxtFirewallSectionRead api3 s3 dF).calls
        = [ApiCall.getSectionWithRulesListWithRules]
      ∨ (resourceNsxtFirewallSectionRead api3 s3 dF).calls
        = [ApiCall.getSectionWithRulesListWithRules, ApiCall.getSection])
    ∧ (resourceNsxtFirewallSectionRead api4 s4 dG).calls
      = [ApiCall.getSectionWithRulesListWithRules, ApiCall.getSection]
    ∧ (resourceL4PortSetNsServiceDelete api1 s1 dL).calls = [ApiCall.deleteNSService]
    ∧ (resourceNsxtNatRuleDelete api2 s2 dN).calls = [ApiCall.deleteNatRule]
    ∧ (resourceNsxtFirewallSectionDelete api3 s3 dF).calls = [ApiCall.deleteSection]
    ∧ ((resourceL4PortSetNsServiceCreate api1 s1 dL).calls
        = [ApiCall.createL4PortSetNSService]
      ∨ (resourceL4PortSetNsServiceCreate api1 s1 dL).calls
        = ApiCall.createL4PortSetNSService
          :: (resourceL4PortSetNsServiceRead api1
              (api1.createL4PortSetNSService s1 (resourceL4PortSetNsServiceCreateBody dL)).2
              { dL with
                id := (api1.createL4PortSetNSService s1
                  (resourceL4PortSetNsServiceCreateBody dL)).1.payload.Id }).calls)
    ∧ ((resourceNsxtNatRuleCreate api2 s2 dN).calls = [ApiCall.addNatRule]
      ∨ (resourceNsxtNatRuleCreate api2 s2 dN).calls
        = ApiCall.addNatRule
          :: (resourceNsxtNatRuleRead api2
              (api2.addNatRule s2 dN.logical_router_id
                (resourceNsxtNatRuleCreateBody dN)).2
              { dN with
                id := (api2.addNatRule s2 dN.logical_router_id
                  (resourceNsxtNatRuleCreateBody dN)).1.payload.Id }).calls)
    ∧ ((resourceNsxtFirewallSectionCreate api3 s3 dE).calls = [ApiCall.addSection]
      ∨ (resourceNsxtFirewallSectionCreate api3 s3 dE).calls
        = ApiCall.addSection
          :: (resourceNsxtFirewallSectionRead api3
              (api3.addSection s3 (resourceNsxtFirewallSectionCreateEmptyBody dE)).2
              { dE with
                id := (api3.addSection s3
                  (resourceNsxtFirewallSectionCreateEmptyBody dE)).1.payload.Id }).calls)
    ∧ ((resourceNsxtFirewallSectionCreate api3 s3 dF).calls
        = [ApiCall.addSectionWithRulesCreateWithRules]
      ∨ (resourceNsxtFirewallSectionCreate api3 s3 dF).calls
        = ApiCall.addSectionWithRulesCreateWithRules
          :: (resourceNsxtFirewallSectionRead api3
              (api3.addSectionWithRulesCreateWithRules s3
                (resourceNsxtFirewallSectionCreateBody dF)).2
              { dF with
                id := (api3.addSectionWithRulesCreateWithRules s3
                  (resourceNsxtFirewallSectionCreateBody dF)).1.payload.Id }).calls)
    ∧ ((resourceL4PortSetNsServiceUpdate api1 s1 dL).calls
        = [ApiCall.updateL4PortSetNSService]
      ∨ (resourceL4PortSetNsServiceUpdate api1 s1 dL).calls
        = ApiCall.updateL4PortSetNSService
          :: (resourceL4PortSetNsServiceRead api1
              (api1.updateL4PortSetNSService s1 dL.id
                (resourceL4PortSetNsServiceUpdateBody dL)).2 dL).calls)
    ∧ ((resourceNsxtNatRuleUpdate api2 s2 dN).calls = [ApiCall.updateNatRule]
      ∨ (resourceNsxtNatRuleUpdate api2 s2 dN).calls
        = ApiCall.updateNatRule
          :: (resourceNsxtNatRuleRead api2
              (api2.updateNatRule s2 dN.logical_router_id dN.id
                (resourceNsxtNatRuleUpdateBody dN)).2 dN).calls)
    ∧ ((resourceNsxtFirewallSectionUpdate api3 s3 dF).calls
        = [ApiCall.updateSectionWithRulesUpdateWithRules]
      ∨ (resourceNsxtFirewallSectionUpdate api3 s3 dF).calls
        = ApiCall.updateSectionWithRulesUpdateWithRules
          :: (resourceNsxtFirewallSectionRead api3
              (api3.updateSectionWithRulesUpdateWithRules s3 dF.id
                (resourceNsxtFirewallSectionUpdateBody dF)).2 dF).calls)
    ∧ ((resourceNsxtFirewallSectionUpdate api3 s3 dE).calls = [ApiCall.updateSection]
      ∨ (resourceNsxtFirewallSectionUpdate api3 s3 dE).calls
        = [ApiCall.updateSection, ApiCall.getSectionWithRulesListWithRules]
      ∨ (resourceNsxtFirewallSectionUpdate api3 s3 dE).calls
        = ApiCall.updateSection :: ApiCall.getSectionWithRulesListWithRules ::
          ((api3.getSectionWithRulesListWithRules
              (api3.updateSection s3 dE.id
                (resourceNsxtFirewallSectionUpdateEmptyBody dE)).2
              dE.id).1.payload.Rules.map (fun _ => ApiCall.deleteRule)
            ++ (resourceNsxtFirewallSectionRead api3
                (List.foldl (fun st rule => (api3.deleteRule st dE.id rule.Id).2)
                  (api3.getSectionWithRulesListWithRules
                    (api3.updateSection s3 dE.id
                      (resourceNsxtFirewallSectionUpdateEmptyBody dE)).2
                    dE.id).2
                  (api3.getSectionWithRulesListWithRules
                    (api3.updateSection s3 dE.id
                      (resourceNsxtFirewallSectionUpdateEmptyBody dE)).2
                    dE.id).1.payload.Rules)
                dE).calls)) := by
  refine ⟨?_, ?_, ?_, ?_, ?_, ?_, ?_, ?_, ?_, ?_, ?_, ?_, ?_, ?_, ?_⟩
  · cases hv : (api1.readL4PortSetNSService s1 dL.id).1.resp with
    | none => simp [resourceL4PortSetNsServiceRead, hL, hv]
    | some code =>
      by_cases hc : code = 404
      · simp [resourceL4PortSetNsServiceRead, hL, hv, hc]
      · cases he : (api1.readL4PortSetNSService s1 dL.id).1.err with
        | none => simp [resourceL4PortSetNsServiceRead, hL, hv, hc, he]
        | some e => simp [resourceL4PortSetNsServiceRead, hL, hv, hc, he]
  · cases hv : (api2.getNatRule s2 dN.logical_router_id dN.id).1.resp with
    | none => simp [resourceNsxtNatRuleRead, hN, hNlr, hv]
    | some code =>
      by_cases hc : code = 404
      · simp [resourceNsxtNatRuleRead, hN, hNlr, hv, hc]
      · cases he : (api2.getNatRule s2 dN.logical_router_id dN.id).1.err with
        | none => simp [resourceNsxtNatRuleRead, hN, hNlr, hv, hc, he]
        | some e => simp [resourceNsxtNatRuleRead, hN, hNlr, hv, hc, he]
  · cases hv : (api3.getSectionWithRulesListWithRules s3 dF.id).1.resp with
    | none => left; simp [resourceNsxtFirewallSectionRead, hF, hv]
    | some code =>
      by_cases hc : code = 404
      · left; simp [resourceNsxtFirewallSectionRead, hF, hv, hc]
      · cases he : (api3.getSectionWithRulesListWithRules s3 dF.id).1.err with
        | some e => left; simp [resourceNsxtFirewallSectionRead, hF, hv, hc, he]
        | none =>
          cases hv2 : (api3.getSection
              (api3.getSectionWithRulesListWithRules s3 dF.id).2 dF.id).1.resp with
          | none => right; simp [resourceNsxtFirewallSectionRead, hF, hv, hc, he, hv2]
          | some code2 =>
            by_cases hc2 : code2 = 404
            · right; simp [resourceNsxtFirewallSectionRead, hF, hv, hc, he, hv2, hc2]
            · cases he2 : (api3.getSection
                  (api3.getSectionWithRulesListWithRules s3 dF.id).2 dF.id).1.err with
              | none =>
                right
                simp [resourceNsxtFirewallSectionRead, hF, hv, hc, he, hv2, hc2, he2]
              | some e2 =>
                right
                simp [resourceNsxtFirewallSectionRead, hF, hv, hc, he, hv2, hc2, he2]
  · cases hv2 : (api4.getSection
        (api4.getSectionWithRulesListWithRules s4 dG.id).2 dG.id).1.resp with
    | none => simp [resourceNsxtFirewallSectionRead, hG, hGr, hGc, hGe, hv2]
    | some code2 =>
      by_cases hc2 : code2 = 404
      · simp [resourceNsxtFirewallSectionRead, hG, hGr, hGc, hGe, hv2, hc2]
      · cases he2 : (api4.getSection
            (api4.getSectionWithRulesListWithRules s4 dG.id).2 dG.id).1.err with
        | none => simp [resourceNsxtFirewallSectionRead, hG, hGr, hGc, hGe, hv2, hc2, he2]
        | some e2 => simp [resourceNsxtFirewallSectionRead, hG, hGr, hGc, hGe, hv2, hc2, he2]
  · cases he : (api1.deleteNSService s1 dL.id).1.err with
    | some e => simp [resourceL4PortSetNsServiceDelete, hL, he]
    | none =>
      cases hv : (api1.deleteNSService s1 dL.id).1.resp with
      | none => simp [resourceL4PortSetNsServiceDelete, hL, he, hv]
      | some code =>
        by_cases hc : code = 404 <;> simp [resourceL4PortSetNsServiceDelete, hL, he, hv, hc]
  · cases he : (api2.deleteNatRule s2 dN.logical_router_id dN.id).1.err with
    | some e => simp [resourceNsxtNatRuleDelete, hN, hNlr, he]
    | none =>
      cases hv : (api2.deleteNatRule s2 dN.logical_router_id dN.id).1.resp with
      | none => simp [resourceNsxtNatRuleDelete, hN, hNlr, he, hv]
      | some code =>
        by_cases hc : code = 404 <;> simp [resourceNsxtNatRuleDelete, hN, hNlr, he, hv, hc]
  · cases he : (api3.deleteSection s3 dF.id).1.err with
    | some e => simp [resourceNsxtFirewallSectionDelete, hF, he]
    | none =>
      cases hv : (api3.deleteSection s3 dF.id).1.resp with
      | none => simp [resourceNsxtFirewallSectionDelete, hF, he, hv]
      | some code =>
        by_cases hc : code = 404 <;> simp [resourceNsxtFirewallSectionDelete, hF, he, hv, hc]
  · cases he : (api1.createL4PortSetNSService s1
        (resourceL4PortSetNsServiceCreateBody dL)).1.err with
    | some e => left; simp [resourceL4PortSetNsServiceCreate, he]
    | none =>
      cases hv : (api1.createL4PortSetNSService s1
          (resourceL4PortSetNsServiceCreateBody dL)).1.resp with
      | none => left; simp [resourceL4PortSetNsServiceCreate, he, hv]
      | some code =>
        by_cases hc : code = 201
        · right; simp [resourceL4PortSetNsServiceCreate, he, hv, hc]
        · left; simp [resourceL4PortSetNsServiceCreate, he, hv, hc]
  · cases he : (api2.addNatRule s2 dN.logical_router_id
        (resourceNsxtNatRuleCreateBody dN)).1.err with
    | some e => left; simp [resourceNsxtNatRuleCreate, hNlr, he]
    | none =>
      cases hv : (api2.addNatRule s2 dN.logical_router_id
          (resourceNsxtNatRuleCreateBody dN)).1.resp with
      | none => left; simp [resourceNsxtNatRuleCreate, hNlr, he, hv]
      | some code =>
        by_cases hc : code = 201
        · right; simp [resourceNsxtNatRuleCreate, hNlr, he, hv, hc]
        · left; simp [resourceNsxtNatRuleCreate, hNlr, he, hv, hc]
  · cases he : (api3.addSection s3 (resourceNsxtFirewallSectionCreateEmptyBody dE)).1.err with
    | some e =>
      left; simp [resourceNsxtFirewallSectionCreate, resourceNsxtFirewallSectionCreateEmpty,
        hEr, he]
    | none =>
      cases hv : (api3.addSection s3
          (resourceNsxtFirewallSectionCreateEmptyBody dE)).1.resp with
      | none =>
        left; simp [resourceNsxtFirewallSectionCreate, resourceNsxtFirewallSectionCreateEmpty,
          hEr, he, hv]
      | some code =>
        by_cases hc : code = 201
        · right
          simp [resourceNsxtFirewallSectionCreate, resourceNsxtFirewallSectionCreateEmpty,
            hEr, he, hv, hc]
        · left
          simp [resourceNsxtFirewallSectionCreate, resourceNsxtFirewallSectionCreateEmpty,
            hEr, he, hv, hc]
  · cases he : (api3.addSectionWithRulesCreateWithRules s3
        (resourceNsxtFirewallSectionCreateBody dF)).1.err with
    | some e => left; simp [resourceNsxtFirewallSectionCreate, hFr, he]
    | none =>
      cases hv : (api3.addSectionWithRulesCreateWithRules s3
          (resourceNsxtFirewallSectionCreateBody dF)).1.resp with
      | none => left; simp [resourceNsxtFirewallSectionCreate, hFr, he, hv]
      | some code =>
        by_cases hc : code = 201
        · right; simp [resourceNsxtFirewallSectionCreate, hFr, he, hv, hc]
        · left; simp [resourceNsxtFirewallSectionCreate, hFr, he, hv, hc]
  · cases he : (api1.updateL4PortSetNSService s1 dL.id
        (resourceL4PortSetNsServiceUpdateBody dL)).1.err with
    | some e => left; simp [resourceL4PortSetNsServiceUpdate, hL, he]
    | none =>
      cases hv : (api1.updateL4PortSetNSService s1 dL.id
          (resourceL4PortSetNsServiceUpdateBody dL)).1.resp with
      | none => left; simp [resourceL4PortSetNsServiceUpdate, hL, he, hv]
      | some code =>
        by_cases hc : code = 404
        · left; simp [resourceL4PortSetNsServiceUpdate, hL, he, hv, hc]
        · right; simp [resourceL4PortSetNsServiceUpdate, hL, he, hv, hc]
  · cases he : (api2.updateNatRule s2 dN.logical_router_id dN.id
        (resourceNsxtNatRuleUpdateBody dN)).1.err with
    | some e => left; simp [resourceNsxtNatRuleUpdate, hN, hNlr, he]
    | none =>
      cases hv : (api2.updateNatRule s2 dN.logical_router_id dN.id
          (resourceNsxtNatRuleUpdateBody dN)).1.resp with
      | none => left; simp [resourceNsxtNatRuleUpdate, hN, hNlr, he, hv]
      | some code =>
        by_cases hc : code = 404
        · left; simp [resourceNsxtNatRuleUpdate, hN, hNlr, he, hv, hc]
        · right; simp [resourceNsxtNatRuleUpdate, hN, hNlr, he, hv, hc]
  · cases he : (api3.updateSectionWithRulesUpdateWithRules s3 dF.id
        (resourceNsxtFirewallSectionUpdateBody dF)).1.err with
    | some e => left; simp [resourceNsxtFirewallSectionUpdate, hF, hFr, he]
    | none =>
      cases hv : (api3.updateSectionWithRulesUpdateWithRules s3 dF.id
          (resourceNsxtFirewallSectionUpdateBody dF)).1.resp with
      | none => left; simp [resourceNsxtFirewallSectionUpdate, hF, hFr, he, hv]
      | some code =>
        by_cases hc : code = 404
        · left; simp [resourceNsxtFirewallSectionUpdate, hF, hFr, he, hv, hc]
        · right; simp [resourceNsxtFirewallSectionUpdate, hF, hFr, he, hv, hc]
  · cases he : (api3.updateSection s3 dE.id
        (resourceNsxtFirewallSectionUpdateEmptyBody dE)).1.err with
    | some e =>
      left; simp [resourceNsxtFirewallSectionUpdate, resourceNsxtFirewallSectionUpdateEmpty,
        hE, hEr, he]
    | none =>
      cases hv : (api3.updateSection s3 dE.id
          (resourceNsxtFirewallSectionUpdateEmptyBody dE)).1.resp with
      | none =>
        left; simp [resourceNsxtFirewallSectionUpdate, resourceNsxtFirewallSectionUpdateEmpty,
          hE, hEr, he, hv]
      | some code =>
        by_cases hc : code = 404
        · left
          simp [resourceNsxtFirewallSectionUpdate, resourceNsxtFirewallSectionUpdateEmpty,
            hE, hEr, he, hv, hc]
        · cases hv2 : (api3.getSectionWithRulesListWithRules
              (api3.updateSection s3 dE.id
                (resourceNsxtFirewallSectionUpdateEmptyBody dE)).2 dE.id).1.resp with
          | none =>
            right; left
            simp [resourceNsxtFirewallSectionUpdate, resourceNsxtFirewallSectionUpdateEmpty,
              hE, hEr, he, hv, hc, hv2]
          | some code2 =>
            by_cases hc2 : code2 = 404
            · right; left
              simp [resourceNsxtFirewallSectionUpdate, resourceNsxtFirewallSectionUpdateEmpty,
                hE, hEr, he, hv, hc, hv2, hc2]
            · cases he2 : (api3.getSectionWithRulesListWithRules
                  (api3.updateSection s3 dE.id
                    (resourceNsxtFirewallSectionUpdateEmptyBody dE)).2 dE.id).1.err with
              | some e2 =>
                right; left
                simp [resourceNsxtFirewallSectionUpdate,
                  resourceNsxtFirewallSectionUpdateEmpty, hE, hEr, he, hv, hc, hv2, hc2, he2]
              | none =>
                right; right
                simp [resourceNsxtFirewallSectionUpdate,
                  resourceNsxtFirewallSectionUpdateEmpty, hE, hEr, he, hv, hc, hv2, hc2, he2]

/-- C6 witness: the per-operation call-trace statement evaluated on the
concrete states against the all-success oracles. -/
theorem c6_call_counts_per_operation_witness :
    (resourceL4PortSetNsServiceRead l4AllOkApi () l4TestState).calls
      = [ApiCall.readL4PortSetNSService]
    ∧ (resourceNsxtNatRuleRead natAllOkApi () natTestState).calls = [ApiCall.getNatRule]
    ∧ ((resourceNsxtFirewallSectionRead fwAllOkApi () fwTestState).calls
        = [ApiCall.getSectionWithRulesListWithRules]
      ∨ (resourceNsxtFirewallSectionRead fwAllOkApi () fwTestState).calls
        = [ApiCall.getSectionWithRulesListWithRules, ApiCall.getSection])
    ∧ (resourceNsxtFirewallSectionRead fwAllOkApi () fwTestState).calls
      = [ApiCall.getSectionWithRulesListWithRules, ApiCall.getSection]
    ∧ (resourceL4PortSetNsServiceDelete l4AllOkApi () l4TestState).calls
      = [ApiCall.deleteNSService]
    ∧ (resourceNsxtNatRuleDelete natAllOkApi () natTestState).calls = [ApiCall.deleteNatRule]
    ∧ (resourceNsxtFirewallSectionDelete fwAllOkApi () fwTestState).calls
      = [ApiCall.deleteSection]
    ∧ ((resourceL4PortSetNsServiceCreate l4AllOkApi () l4TestState).calls
        = [ApiCall.createL4PortSetNSService]
      ∨ (resourceL4PortSetNsServiceCreate l4AllOkApi () l4TestState).calls
        = ApiCall.createL4PortSetNSService
          :: (resourceL4PortSetNsServiceRead l4AllOkApi
              (l4AllOkApi.createL4PortSetNSService ()
                (resourceL4PortSetNsServiceCreateBody l4TestState)).2
              { l4TestState with
                id := (l4AllOkApi.createL4PortSetNSService ()
                  (resourceL4PortSetNsServiceCreateBody l4TestState)).1.payload.Id }).calls)
    ∧ ((resourceNsxtNatRuleCreate natAllOkApi () natTestState).calls = [ApiCall.addNatRule]
      ∨ (resourceNsxtNatRuleCreate natAllOkApi () natTestState).calls
        = ApiCall.addNatRule
          :: (resourceNsxtNatRuleRead natAllOkApi
              (natAllOkApi.addNatRule () natTestState.logical_router_id
                (resourceNsxtNatRuleCreateBody natTestState)).2
              { natTestState with
                id := (natAllOkApi.addNatRule () natTestState.logical_router_id
                  (resourceNsxtNatRuleCreateBody natTestState)).1.payload.Id }).calls)
    ∧ ((resourceNsxtFirewallSectionCreate fwAllOkApi () fwEmptyRulesState).calls
        = [ApiCall.addSection]
      ∨ (resourceNsxtFirewallSectionCreate fwAllOkApi () fwEmptyRulesState).calls
        = ApiCall.addSection
          :: (resourceNsxtFirewallSectionRead fwAllOkApi
              (fwAllOkApi.addSection ()
                (resourceNsxtFirewallSectionCreateEmptyBody fwEmptyRulesState)).2
              { fwEmptyRulesState with
                id := (fwAllOkApi.addSection ()
                  (resourceNsxtFirewallSectionCreateEmptyBody
                    fwEmptyRulesState)).1.payload.Id }).calls)
    ∧ ((resourceNsxtFirewallSectionCreate fwAllOkApi () fwTestState).calls
        = [ApiCall.addSectionWithRulesCreateWithRules]
      ∨ (resourceNsxtFirewallSectionCreate fwAllOkApi () fwTestState).calls
        = ApiCall.addSectionWithRulesCreateWithRules
          :: (resourceNsxtFirewallSectionRead fwAllOkApi
              (fwAllOkApi.addSectionWithRulesCreateWithRules ()
                (resourceNsxtFirewallSectionCreateBody fwTestState)).2
              { fwTestState with
                id := (fwAllOkApi.addSectionWithRulesCreateWithRules ()
                  (resourceNsxtFirewallSectionCreateBody fwTestState)).1.payload.Id }).calls)
    ∧ ((resourceL4PortSetNsServiceUpdate l4AllOkApi () l4TestState).calls
        = [ApiCall.updateL4PortSetNSService]
      ∨ (resourceL4PortSetNsServiceUpdate l4AllOkApi () l4TestState).calls
        = ApiCall.updateL4PortSetNSService
          :: (resourceL4PortSetNsServiceRead l4AllOkApi
              (l4AllOkApi.updateL4PortSetNSService () l4TestState.id
                (resourceL4PortSetNsServiceUpdateBody l4TestState)).2 l4TestState).calls)
    ∧ ((resourceNsxtNatRuleUpdate natAllOkApi () natTestState).calls
        = [ApiCall.updateNatRule]
      ∨ (resourceNsxtNatRuleUpdate natAllOkApi () natTestState).calls
        = ApiCall.updateNatRule
          :: (resourceNsxtNatRuleRead natAllOkApi
              (natAllOkApi.updateNatRule () natTestState.logical_router_id natTestState.id
                (resourceNsxtNatRuleUpdateBody natTestState)).2 natTestState).calls)
    ∧ ((resourceNsxtFirewallSectionUpdate fwAllOkApi () fwTestState).calls
        = [ApiCall.updateSectionWithRulesUpdateWithRules]
      ∨ (resourceNsxtFirewallSectionUpdate fwAllOkApi () fwTestState).calls
        = ApiCall.updateSectionWithRulesUpdateWithRules
          :: (resourceNsxtFirewallSectionRead fwAllOkApi
              (fwAllOkApi.updateSectionWithRulesUpdateWithRules () fwTestState.id
                (resourceNsxtFirewallSectionUpdateBody fwTestState)).2 fwTestState).calls)
    ∧ ((resourceNsxtFirewallSectionUpdate fwAllOkApi () fwEmptyRulesState).calls
        = [ApiCall.updateSection]
      ∨ (resourceNsxtFirewallSectionUpdate fwAllOkApi () fwEmptyRulesState).calls
        = [ApiCall.updateSection, ApiCall.getSectionWithRulesListWithRules]
      ∨ (resourceNsxtFirewallSectionUpdate fwAllOkApi () fwEmptyRulesState).calls
        = ApiCall.updateSection :: ApiCall.getSectionWithRulesListWithRules ::
          ((fwAllOkApi.getSectionWithRulesListWithRules
              (fwAllOkApi.updateSection () fwEmptyRulesState.id
                (resourceNsxtFirewallSectionUpdateEmptyBody fwEmptyRulesState)).2
              fwEmptyRulesState.id).1.payload.Rules.map (fun _ => ApiCall.deleteRule)
            ++ (resourceNsxtFirewallSectionRead fwAllOkApi
                (List.foldl
                  (fun st rule => (fwAllOkApi.deleteRule st fwEmptyRulesState.id rule.Id).2)
                  (fwAllOkApi.getSectionWithRulesListWithRules
                    (fwAllOkApi.updateSection () fwEmptyRulesState.id
                      (resourceNsxtFirewallSectionUpdateEmptyBody fwEmptyRulesState)).2
                    fwEmptyRulesState.id).2
                  (fwAllOkApi.getSectionWithRulesListWithRules
                    (fwAllOkApi.updateSection () fwEmptyRulesState.id
                      (resourceNsxtFirewallSectionUpdateEmptyBody fwEmptyRulesState)).2
                    fwEmptyRulesState.id).1.payload.Rules)
                fwEmptyRulesState).calls)) :=
  c6_call_counts_per_operation l4AllOkApi () l4TestState (by decide)
    natAllOkApi () natTestState (by decide) (by decide)
    fwAllOkApi () fwTestState (by decide) (by decide)
    fwEmptyRulesState (by decide) (by decide)
    fwAllOkApi () fwTestState (by decide) 200 rfl (by decide) rfl

/-- C9: with an empty local identifier, every Read, Update and Delete
handler returns the "Error obtaining logical object id" error with the
server untouched and an empty call trace; the NAT rule Read, Update,
Delete and Create handlers do the same when the stored logical_router_id
is empty. -/
theorem c9_empty_ids_error_without_api_call
    {σ₁ σ₂ σ₃ : Type}
    (api1 : GroupingObjectsApi σ₁) (s1 : σ₁) (dL : L4State) (hL : dL.id = "")
    (api2 : LogicalRoutingAndServicesApi σ₂) (s2 : σ₂)
    (dN : NatState) (hN : dN.id = "")
    (dN2 : NatState) (hN2 : dN2.id ≠ "") (hN2lr : dN2.logical_router_id = "")
    (dN3 : NatState) (hN3 : dN3.logical_router_id = "")
    (api3 : ServicesApi σ₃) (s3 : σ₃) (dF : FwState) (hF : dF.id = "") :
    resourceL4PortSetNsServiceRead api1 s1 dL
      = { outcome := Outcome.fails "Error obtaining logical object id" dL,
          server := s1, calls := [] }
    ∧ resourceL4PortSetNsServiceUpdate api1 s1 dL
      = { outcome := Outcome.fails "Error obtaining logical object id" dL,
          server := s1, calls := [] }
    ∧ resourceL4PortSetNsServiceDelete api1 s1 dL
      = { outcome := Outcome.fails "Error obtaining logical object id" dL,
          server := s1, calls := [] }
    ∧ resourceNsxtNatRuleRead api2 s2 dN
      = { outcome := Outcome.fails "Error obtaining logical object id" dN,
          server := s2, calls := [] }
    ∧ resourceNsxtNatRuleUpdate api2 s2 dN
      = { outcome := Outcome.fails "Error obtaining logical object id" dN,
          server := s2, calls := [] }
    ∧ resourceNsxtNatRuleDelete api2 s2 dN
      = { outcome := Outcome.fails "Error obtaining logical object id" dN,
          server := s2, calls := [] }
    ∧ resourceNsxtNatRuleRead api2 s2 dN2
      = { outcome := Outcome.fails "Error obtaining logical object id" dN2,
          server := s2, calls := [] }
    ∧ resourceNsxtNatRuleUpdate api2 s2 dN2
      = { outcome := Outcome.fails "Error obtaining logical object id" dN2,
          server := s2, calls := [] }
    ∧ resourceNsxtNatRuleDelete api2 s2 dN2
      = { outcome := Outcome.fails "Error obtaining logical object id" dN2,
          server := s2, calls := [] }
    ∧ resourceNsxtNatRuleCreate api2 s2 dN3
      = { outcome := Outcome.fails "Error obtaining logical object id" dN3,
          server := s2, calls := [] }
    ∧ resourceNsxtFirewallSectionRead api3 s3 dF
      = { outcome := Outcome.fails "Error obtaining logical object id" dF,
          server := s3, calls := [] }
    ∧ resourceNsxtFirewallSectionUpdate api3 s3 dF
      = { outcome := Outcome.fails "Error obtaining logical object id" dF,
          server := s3, calls := [] }
    ∧ resourceNsxtFirewallSectionDelete api3 s3 dF
      = { outcome := Outcome.fails "Error obtaining logical object id" dF,
          server := s3, calls := [] } := by
  refine ⟨?_, ?_, ?_, ?_, ?_, ?_, ?_, ?_, ?_, ?_, ?_, ?_, ?_⟩
  · simp [resourceL4PortSetNsServiceRead, hL]
  · simp [resourceL4PortSetNsServiceUpdate, hL]
  · simp [resourceL4PortSetNsServiceDelete, hL]
  · simp [resourceNsxtNatRuleRead, hN]
  · simp [resourceNsxtNatRuleUpdate, hN]
  · simp [resourceNsxtNatRuleDelete, hN]
  · simp [resourceNsxtNatRuleRead, hN2, hN2lr]
  · simp [resourceNsxtNatRuleUpdate, hN2, hN2lr]
  · simp [resourceNsxtNatRuleDelete, hN2, hN2lr]
  · simp [resourceNsxtNatRuleCreate, hN3]
  · simp [resourceNsxtFirewallSectionRead, hF]
  · simp [resourceNsxtFirewallSectionUpdate, hF]
  · simp [resourceNsxtFirewallSectionDelete, hF]

/-- C9 witness: the empty-identifier guards evaluated on the concrete
states against the all-success oracles. -/
theorem c9_empty_ids_error_without_api_call_witness :
    resourceL4PortSetNsServiceRead l4AllOkApi () l4NoIdState
      = { outcome := Outcome.fails "Error obtaining logical object id" l4NoIdState,
          server := (), calls := [] }
    ∧ resourceL4PortSetNsServiceUpdate l4AllOkApi () l4NoIdState
      = { outcome := Outcome.fails "Error obtaining logical object id" l4NoIdState,
          server := (), calls := [] }
    ∧ resourceL4PortSetNsServiceDelete l4AllOkApi () l4NoIdState
      = { outcome := Outcome.fails "Error obtaining logical object id" l4NoIdState,
          server := (), calls := [] }
    ∧ resourceNsxtNatRuleRead natAllOkApi () natNoIdState
      = { outcome := Outcome.fails "Error obtaining logical object id" natNoIdState,
          server := (), calls := [] }
    ∧ resourceNsxtNatRuleUpdate natAllOkApi () natNoIdState
      = { outcome := Outcome.fails "Error obtaining logical object id" natNoIdState,
          server := (), calls := [] }
    ∧ resourceNsxtNatRuleDelete natAllOkApi () natNoIdState
      = { outcome := Outcome.fails "Error obtaining logical object id" natNoIdState,
          server := (), calls := [] }
    ∧ resourceNsxtNatRuleRead natAllOkApi () natNoLrState
      = { outcome := Outcome.fails "Error obtaining logical object id" natNoLrState,
          server := (), calls := [] }
    ∧ resourceNsxtNatRuleUpdate natAllOkApi () natNoLrState
      = { outcome := Outcome.fails "Error obtaining logical object id" natNoLrState,
          server := (), calls := [] }
    ∧ resourceNsxtNatRuleDelete natAllOkApi () natNoLrState
      = { outcome := Outcome.fails "Error obtaining logical object id" natNoLrState,
          server := (), calls := [] }
    ∧ resourceNsxtNatRuleCreate natAllOkApi () natNoLrState
      = { outcome := Outcome.fails "Error obtaining logical object id" natNoLrState,
          server := (), calls := [] }
    ∧ resourceNsxtFirewallSectionRead fwAllOkApi () fwNoIdState
      = { outcome := Outcome.fails "Error obtaining logical object id" fwNoIdState,
          server := (), calls := [] }
    ∧ resourceNsxtFirewallSectionUpdate fwAllOkApi () fwNoIdState
      = { outcome := Outcome.fails "Error obtaining logical object id" fwNoIdState,
          server := (), calls := [] }
    ∧ resourceNsxtFirewallSectionDelete fwAllOkApi () fwNoIdState
      = { outcome := Outcome.fails "Error obtaining logical object id" fwNoIdState,
          server := (), calls := [] } :=
  c9_empty_ids_error_without_api_call l4AllOkApi () l4NoIdState (by decide)
    natAllOkApi () natNoIdState (by decide)
    natNoLrState (by decide) (by decide)
    natNoLrState (by decide)
    fwAllOkApi () fwNoIdState (by decide)

/-- Folding the rule-delete step of the firewall section server model over
a rule list whose deletes all succeed empties the server rule list,
provided every server rule's id occurs in the list being iterated. -/
theorem fwRuleServer_foldl_deletes_all (delOk : String → Bool) :
    ∀ (l acc : List FirewallRule), (∀ r ∈ l, delOk r.Id = true) →
      (∀ x ∈ acc, ∃ r, r ∈ l ∧ x.Id = r.Id) →
      List.foldl (fun st rule => (fwDeleteRuleStep delOk rule.Id st).2) acc l = [] := by
  intro l
  induction l with
  | nil =>
    intro acc hAll hacc
    cases acc with
    | nil => rfl
    | cons x xs =>
      rcases hacc x (List.mem_cons_self x xs) with ⟨r, hr, hxr⟩
      exact absurd hr (List.not_mem_nil r)
  | cons r rest ih =>
    intro acc hAll hacc
    have hrOk : delOk r.Id = true := hAll r (List.mem_cons_self r rest)
    have hstep : (fwDeleteRuleStep delOk r.Id acc).2
        = acc.filter (fun x => x.Id != r.Id) := by
      simp [fwDeleteRuleStep, hrOk]
    rw [List.foldl_cons, hstep]
    apply ih
    · intro a ha
      exact hAll a (List.mem_cons_of_mem r ha)
    · intro x hx
      have hx' := List.mem_filter.mp hx
      rcases hacc x hx'.1 with ⟨r', hr', hid⟩
      have hne : x.Id ≠ r.Id := by
        have hb := hx'.2
        simpa [bne_iff_ne] using hb
      rcases List.mem_cons.mp hr' with h | h
      · exact absurd (hid.trans (congrArg FirewallRule.Id h)) hne
      · exact ⟨r', h, hid⟩

/-- C10 counterexample: running the empty-rules firewall section Update
against the rule server holding rules "rule-a" and "rule-b", where the
delete of "rule-b" fails, the handler still returns nil (success) yet the
remote section still holds "rule-b" — so a successful empty update does
not guarantee that the remote section holds no rules. -/
theorem c10_counterexample_failed_delete_leaves_rule :
    Outcome.isOk (resourceNsxtFirewallSectionUpdate (fwRuleServer delOkOnlyA fwMeta)
      [fwRuleA, fwRuleB] fwEmptyRulesState).outcome = true
    ∧ (resourceNsxtFirewallSectionUpdate (fwRuleServer delOkOnlyA fwMeta)
      [fwRuleA, fwRuleB] fwEmptyRulesState).server = [fwRuleB]
    ∧ [fwRuleB] ≠ ([] : List FirewallRule) := by
  exact ⟨rfl, rfl, by decide⟩

/-- C10 (amended): with an empty local rule list and a non-empty
identifier, the firewall section Update takes the separate empty path —
update the metadata without rules, read the remote rules, issue a
DeleteRule for each (ignoring individual failures) — and WHEN every one of
those deletes succeeds, the remote section ends up holding no rules and
the handler returns nil; a failed delete leaves its rule behind (see the
counterexample). -/
theorem c10_empty_update_deletes_all_remote_rules (delOk : String → Bool)
    (meta : FirewallSection) (rules : List FirewallRule) (d : FwState)
    (hid : d.id ≠ "") (hrule : d.rule = [])
    (hAll : ∀ r ∈ rules, delOk r.Id = true) :
    (resourceNsxtFirewallSectionUpdate (fwRuleServer delOk meta) rules d).server = []
    ∧ Outcome.isOk
      (resourceNsxtFirewallSectionUpdate (fwRuleServer delOk meta) rules d).outcome
      = true := by
  have hrules0 : getRulesFromSchema d = [] := by simp [getRulesFromSchema, hrule]
  have hfold : List.foldl
      (fun st rule => (fwDeleteRuleStep delOk rule.Id st).2) rules rules = [] :=
    fwRuleServer_foldl_deletes_all delOk rules rules hAll (fun x hx => ⟨x, hx, rfl⟩)
  constructor
  · simp [resourceNsxtFirewallSectionUpdate, resourceNsxtFirewallSectionUpdateEmpty,
      resourceNsxtFirewallSectionRead, fwRuleServer, fwSectionWithRules, hid, hrules0, hfold]
  · simp [resourceNsxtFirewallSectionUpdate, resourceNsxtFirewallSectionUpdateEmpty,
      resourceNsxtFirewallSectionRead, fwRuleServer, fwSectionWithRules, hid, hrules0, hfold,
      Outcome.isOk]

/-- C10 witness: the amended empty-update property evaluated concretely —
with both rule deletes succeeding the remote section ends up empty and the
handler reports success. -/
theorem c10_empty_update_deletes_all_remote_rules_witness :
    (resourceNsxtFirewallSectionUpdate (fwRuleServer delOkAll fwMeta)
      [fwRuleA, fwRuleB] fwEmptyRulesState).server = []
    ∧ Outcome.isOk (resourceNsxtFirewallSectionUpdate (fwRuleServer delOkAll fwMeta)
      [fwRuleA, fwRuleB] fwEmptyRulesState).outcome = true :=
  c10_empty_update_deletes_all_remote_rules delOkAll fwMeta [fwRuleA, fwRuleB]
    fwEmptyRulesState (by decide) (by decide) (by decide)
